import Mathlib

/-!
Shallow embedding of the Cashfree Payments dify plugin (Python) in Lean 4,
with theorems settling the frozen claims about its specification.

Conventions used throughout:
- Python scalar values occurring in tool parameters / credentials are modelled
  by the inductive type PyVal (None, bool, int, float, str); floats are
  modelled as exact rationals, which is faithful for every comparison the
  code performs on the inputs the claims mention.
- Python dicts are association lists (PyDict) with insertion-order update.
- A raised Python exception is modelled as the error branch of Except String,
  carrying the exception message.
- Network interaction (requests.post) is modelled by passing the outcome of
  the single HTTP call as an explicit argument of type HttpOutcome.
-/

/-- Model of a Python scalar value (parameter or credential entry). -/
inductive PyVal where
  | none
  | bool (b : Bool)
  | int (n : Int)
  | float (q : Rat)
  | str (s : String)
deriving Repr, DecidableEq

/-- Python truthiness of a scalar value. -/
def PyVal.truthy : PyVal → Bool
  | .none => false
  | .bool b => b
  | .int n => n ≠ 0
  | .float q => q ≠ 0
  | .str s => s ≠ ""

/-- Model of a Python dict with string keys (tool_parameters, credentials,
headers): an association list in insertion order. -/
abbrev PyDict := List (String × PyVal)

/-- Model of dict.get(key): first binding of the key, if any. -/
def PyDict.get (d : PyDict) (k : String) : Option PyVal := List.lookup k d

/-- Model of dict.get(key, default). -/
def PyDict.getD (d : PyDict) (k : String) (dflt : PyVal) : PyVal := (d.get k).getD dflt

/-- Model of dict[key] = value: overwrite in place, or append a new binding. -/
def PyDict.set : PyDict → String → PyVal → PyDict
  | [], k, v => [(k, v)]
  | (k0, v0) :: rest, k, v =>
      if k0 = k then (k0, v) :: rest else (k0, v0) :: PyDict.set rest k v

/-- Model of dict[key] read access, which raises KeyError when absent. -/
def PyDict.index (d : PyDict) (k : String) : Except String PyVal :=
  match d.get k with
  | some v => .ok v
  | Option.none => .error ("KeyError: " ++ k)

/-- Embedding of get_auth_headers (src/auth_utils.py, lines 140-164).
The bearer-token exchange performed inside the public-key/payout branch by
get_bearer_token is a network call; its outcome is supplied as the
tokenExchange argument (ok = the token string obtained from the authorize
call, error = the exception message it raised). -/
def get_auth_headers (credentials : PyDict) (include_api_version : Bool)
    (is_payout_api : Bool) (tokenExchange : Except String String) :
    Except String PyDict := do
  let auth_method := credentials.getD "auth_method" (.str "client_credentials")
  let headers : PyDict := [("Content-Type", .str "application/json")]
  let headers :=
    if include_api_version && !is_payout_api then
      headers.set "X-Api-Version" (credentials.getD "cashfree_api_version" (.str "2025-01-01"))
    else headers
  if auth_method = .str "client_credentials" then
    let cid ← credentials.index "cashfree_client_id"
    let csec ← credentials.index "cashfree_client_secret"
    return (headers.set "X-Client-Id" cid).set "X-Client-Secret" csec
  else if auth_method = .str "public_key" then
    if is_payout_api then
      let tok ← tokenExchange
      return headers.set "Authorization" (.str ("Bearer " ++ tok))
    else
      let cid ← credentials.index "cashfree_client_id"
      let csec ← credentials.index "cashfree_client_secret"
      return (headers.set "X-Client-Id" cid).set "X-Client-Secret" csec
  else
    return headers

/-- C1 counterexample: for credentials selecting auth_method = bearer_token with
a non-empty static token, get_auth_headers returns a header set with NO
Authorization header at all (for either value of is_payout_api), contradicting
the claim that it contains Authorization: Bearer of the static token.
get_auth_headers has no bearer_token branch; the final else returns only the
base headers. -/
theorem C1_counterexample :
    ((get_auth_headers [("auth_method", .str "bearer_token"), ("bearer_token", .str "tok")]
        true false (.error "get_bearer_token never invoked")).map
      (fun hs => hs.get "Authorization") = .ok Option.none) ∧
    ((get_auth_headers [("auth_method", .str "bearer_token"), ("bearer_token", .str "tok")]
        true true (.error "get_bearer_token never invoked")).map
      (fun hs => hs.get "Authorization") = .ok Option.none) :=
  ⟨rfl, rfl⟩

/-- C1 (amended): for every credentials record with auth_method = bearer_token,
get_auth_headers falls through to the default branch and returns successfully a
header set containing neither an Authorization header nor the client-id/secret
headers, for either value of is_payout_api (it consists only of Content-Type
plus, when requested for a non-payout call, X-Api-Version). -/
theorem C1_amended (credentials : PyDict) (ive ipa : Bool) (tok : Except String String)
    (h : credentials.getD "auth_method" (.str "client_credentials") = .str "bearer_token") :
    ∃ hs, get_auth_headers credentials ive ipa tok = .ok hs ∧
      hs.get "Authorization" = Option.none ∧
      hs.get "X-Client-Id" = Option.none ∧
      hs.get "X-Client-Secret" = Option.none := by
  unfold get_auth_headers
  rw [h]
  cases ive <;> cases ipa <;> exact ⟨_, rfl, rfl, rfl, rfl⟩

/-- C1 witness: concrete instantiation of the amended claim. -/
theorem C1_amended_witness :
    ∃ hs, get_auth_headers [("auth_method", .str "bearer_token"), ("bearer_token", .str "tok")]
        true true (.error "get_bearer_token never invoked") = .ok hs ∧
      hs.get "Authorization" = Option.none ∧
      hs.get "X-Client-Id" = Option.none ∧
      hs.get "X-Client-Secret" = Option.none :=
  C1_amended _ true true _ rfl

/-- C3: for credentials with auth_method = public_key (with the client id and
secret entries present, as the credential validator guarantees): for a
non-payout call the returned headers carry X-Client-Id and X-Client-Secret and
no Authorization header; for a payout call whose bearer-token exchange yields
token t, the headers carry Authorization: Bearer t and neither X-Client-Id nor
X-Client-Secret. -/
theorem C3_public_key_header_policy (credentials : PyDict) (ive : Bool) (t : String)
    (tok : Except String String) (vi vs : PyVal)
    (hm : credentials.getD "auth_method" (.str "client_credentials") = .str "public_key")
    (hid : credentials.get "cashfree_client_id" = some vi)
    (hsec : credentials.get "cashfree_client_secret" = some vs)
    (htok : tok = .ok t) :
    (∃ hs, get_auth_headers credentials ive false tok = .ok hs ∧
      hs.get "X-Client-Id" = some vi ∧ hs.get "X-Client-Secret" = some vs ∧
      hs.get "Authorization" = Option.none) ∧
    (∃ hs, get_auth_headers credentials ive true tok = .ok hs ∧
      hs.get "Authorization" = some (.str ("Bearer " ++ t)) ∧
      hs.get "X-Client-Id" = Option.none ∧ hs.get "X-Client-Secret" = Option.none) := by
  constructor
  · unfold get_auth_headers
    rw [hm]
    simp only [PyDict.index, hid, hsec]
    cases ive <;> exact ⟨_, rfl, rfl, rfl, rfl⟩
  · unfold get_auth_headers
    rw [hm, htok]
    cases ive <;> exact ⟨_, rfl, rfl, rfl, rfl⟩

/-- Python truthiness of the result of dict.get(key) (None when absent). -/
def optTruthy (o : Option PyVal) : Bool := o.elim false PyVal.truthy

/-- Embedding of CashfreePaymentsProvider._validate_credentials
(src/provider/cashfree_payments.py, lines 10-51). The call to
parse_public_key delegates to the external cryptography library
(base64 decoding plus DER SubjectPublicKeyInfo parsing), so it is supplied
as the argument parsePK: ok means parse_public_key succeeds on that
credential value, error carries the exception message it raised. An ok
result of the validator means it returned without raising; an error carries
the ToolProviderCredentialValidationError message. -/
def validate_credentials (credentials : PyDict) (parsePK : PyVal → Except String Unit) :
    Except String Unit :=
  if !(optTruthy (credentials.get "cashfree_environment")) then
    .error "Missing required field: cashfree_environment"
  else if !(credentials.get "cashfree_environment" == some (.str "sandbox")
      || credentials.get "cashfree_environment" == some (.str "production")) then
    .error "Environment must be \x27sandbox\x27 or \x27production\x27"
  else
    let auth_method := credentials.getD "auth_method" (.str "client_credentials")
    if auth_method = .str "client_credentials" then
      if !(optTruthy (credentials.get "cashfree_client_id")) then
        .error "Missing required field for client credentials: cashfree_client_id"
      else if !(optTruthy (credentials.get "cashfree_client_secret")) then
        .error "Missing required field for client credentials: cashfree_client_secret"
      else .ok ()
    else if auth_method = .str "public_key" then
      if !(optTruthy (credentials.get "cashfree_client_id")) then
        .error "Missing required field for public key signature: cashfree_client_id"
      else if !(optTruthy (credentials.get "cashfree_client_secret")) then
        .error "Missing required field for public key signature: cashfree_client_secret"
      else if !(optTruthy (credentials.get "cashfree_public_key")) then
        .error "Missing required field for public key signature: cashfree_public_key"
      else
        match parsePK (credentials.getD "cashfree_public_key" .none) with
        | .ok () => .ok ()
        | .error e => .error ("Invalid public key format: " ++ e)
    else
      .error "Invalid authentication method. Must be \x27client_credentials\x27 or \x27public_key\x27"

/-- C2 counterexample: a credentials map with a valid environment,
auth_method = bearer_token and a non-empty static token is REJECTED by the
credential validator with an invalid-authentication-method error (the
validator only supports client_credentials and public_key), contradicting
the claim that such credentials are accepted. -/
theorem C2_counterexample :
    validate_credentials
      [("cashfree_environment", .str "sandbox"), ("auth_method", .str "bearer_token"),
       ("bearer_token", .str "tok")] (fun _ => .ok ()) =
    .error "Invalid authentication method. Must be \x27client_credentials\x27 or \x27public_key\x27" :=
  rfl

/-- C2 (amended): the validator accepts a credentials map (raises no
validation error) if and only if the environment entry is sandbox or
production AND the selected auth_method (defaulting to client_credentials)
is one of the two supported methods with its required fields non-empty:
client_credentials needs id and secret; public_key needs id, secret and a
public key that parses. In particular auth_method = bearer_token is always
rejected with an invalid-authentication-method error, not accepted. -/
theorem C2_amended (credentials : PyDict) (parsePK : PyVal → Except String Unit) :
    validate_credentials credentials parsePK = .ok () ↔
      ((credentials.get "cashfree_environment" = some (.str "sandbox") ∨
        credentials.get "cashfree_environment" = some (.str "production")) ∧
       ((credentials.getD "auth_method" (.str "client_credentials") = .str "client_credentials" ∧
         optTruthy (credentials.get "cashfree_client_id") = true ∧
         optTruthy (credentials.get "cashfree_client_secret") = true) ∨
        (credentials.getD "auth_method" (.str "client_credentials") = .str "public_key" ∧
         optTruthy (credentials.get "cashfree_client_id") = true ∧
         optTruthy (credentials.get "cashfree_client_secret") = true ∧
         optTruthy (credentials.get "cashfree_public_key") = true ∧
         parsePK (credentials.getD "cashfree_public_key" .none) = .ok ()))) := by
  by_cases he : (credentials.get "cashfree_environment" = some (PyVal.str "sandbox") ∨
      credentials.get "cashfree_environment" = some (PyVal.str "production"))
  · have henvt : optTruthy (credentials.get "cashfree_environment") = true := by
      rcases he with h | h <;> rw [h] <;> rfl
    have hbeq : (credentials.get "cashfree_environment" == some (PyVal.str "sandbox")
        || credentials.get "cashfree_environment" == some (PyVal.str "production")) = true := by
      rcases he with h | h <;> rw [h] <;> rfl
    unfold validate_credentials
    simp only [henvt, hbeq, Bool.not_true, Bool.false_eq_true, if_false, he, true_and]
    by_cases hm1 : credentials.getD "auth_method" (PyVal.str "client_credentials")
        = PyVal.str "client_credentials"
    · rw [if_pos hm1]
      simp only [hm1]
      cases hid : optTruthy (credentials.get "cashfree_client_id") <;>
        cases hsec : optTruthy (credentials.get "cashfree_client_secret") <;>
        simp
    · rw [if_neg hm1]
      by_cases hm2 : credentials.getD "auth_method" (PyVal.str "client_credentials")
          = PyVal.str "public_key"
      · rw [if_pos hm2]
        simp only [hm2]
        cases hid : optTruthy (credentials.get "cashfree_client_id") <;>
          cases hsec : optTruthy (credentials.get "cashfree_client_secret") <;>
          cases hkey : optTruthy (credentials.get "cashfree_public_key") <;>
          cases hp : parsePK (credentials.getD "cashfree_public_key" PyVal.none) <;>
          simp
      · rw [if_neg hm2]
        simp [hm1, hm2]
  · have hbeq : (credentials.get "cashfree_environment" == some (PyVal.str "sandbox")
        || credentials.get "cashfree_environment" == some (PyVal.str "production")) = false := by
      rw [Bool.or_eq_false_iff, beq_eq_false_iff_ne, beq_eq_false_iff_ne]
      exact ⟨fun h => he (.inl h), fun h => he (.inr h)⟩
    unfold validate_credentials
    simp only [hbeq, Bool.not_false, if_true, he, false_and]
    cases henv : optTruthy (credentials.get "cashfree_environment") <;> simp

/-- C3 witness: concrete instantiation. -/
theorem C3_public_key_header_policy_witness :
    (∃ hs, get_auth_headers [("auth_method", .str "public_key"),
        ("cashfree_client_id", .str "id"), ("cashfree_client_secret", .str "sec")]
        true false (.ok "T") = .ok hs ∧
      hs.get "X-Client-Id" = some (.str "id") ∧ hs.get "X-Client-Secret" = some (.str "sec") ∧
      hs.get "Authorization" = Option.none) ∧
    (∃ hs, get_auth_headers [("auth_method", .str "public_key"),
        ("cashfree_client_id", .str "id"), ("cashfree_client_secret", .str "sec")]
        true true (.ok "T") = .ok hs ∧
      hs.get "Authorization" = some (.str "Bearer T") ∧
      hs.get "X-Client-Id" = Option.none ∧ hs.get "X-Client-Secret" = Option.none) :=
  C3_public_key_header_policy _ true "T" _ _ _ rfl rfl rfl rfl

/-- Model of a JSON value as decoded by response.json(). -/
inductive JVal where
  | null
  | bool (b : Bool)
  | num (q : Rat)
  | str (s : String)
  | arr (xs : List JVal)
  | obj (fields : List (String × JVal))

/-- Python truthiness of a decoded JSON value. -/
def JVal.truthy : JVal → Bool
  | .null => false
  | .bool b => b
  | .num q => q ≠ 0
  | .str s => s ≠ ""
  | .arr xs => !xs.isEmpty
  | .obj fs => !fs.isEmpty

mutual

/-- Model of the Python repr rendering of a decoded JSON value, as it is
interpolated into exception messages (dict and list structure preserved;
string atoms quoted). -/
def JVal.reprStr : JVal → String
  | .null => "None"
  | .bool true => "True"
  | .bool false => "False"
  | .num q => if q.den = 1 then toString q.num else toString q
  | .str s => "\x27" ++ s ++ "\x27"
  | .arr xs => "[" ++ JVal.reprList xs ++ "]"
  | .obj fs => "\x7b" ++ JVal.reprFields fs ++ "\x7d"

/-- Comma-separated repr of the elements of a JSON array. -/
def JVal.reprList : List JVal → String
  | [] => ""
  | [x] => JVal.reprStr x
  | x :: rest => JVal.reprStr x ++ ", " ++ JVal.reprList rest

/-- Comma-separated repr of the fields of a JSON object. -/
def JVal.reprFields : List (String × JVal) → String
  | [] => ""
  | [(k, v)] => "\x27" ++ k ++ "\x27: " ++ JVal.reprStr v
  | (k, v) :: rest => "\x27" ++ k ++ "\x27: " ++ JVal.reprStr v ++ ", " ++ JVal.reprFields rest

end

/-- Model of the Python str rendering used by f-string interpolation: a str
renders as itself, everything else as its repr. -/
def JVal.toStr : JVal → String
  | .str s => s
  | v => v.reprStr

/-- Outcome of the single HTTP call a tool (or the token exchanger) performs:
either a response (with status code, raw text, and the result of
response.json(), Option.none meaning the body is not valid JSON), or a
transport-level failure raised by requests. -/
inductive HttpOutcome where
  | response (status : Nat) (text : String) (json : Option JVal)
  | transportError (msg : String)

/-- Number denoted by a list of ASCII digits. -/
def digitsVal (ds : List Char) : Nat := ds.foldl (fun a c => a * 10 + (c.toNat - 48)) 0

/-- Nat denoted by a decimal string, when it is one (models int parsing inside
the library routines strptime and float). -/
def strToNat? (s : String) : Option Nat :=
  if s ≠ "" ∧ s.data.all Char.isDigit then some (digitsVal s.data) else Option.none

/-- Value of a Python decimal literal accepted by float(): optional sign, then
digits with an optional fractional part (at least one digit overall). This
models the builtin float conversion on the numeric strings the tools receive
(exotic float() inputs - exponents, inf/nan, underscores, surrounding
whitespace - are outside the model). -/
def parseDecimal? (s : String) : Option Rat :=
  let core : List Char → Option Rat := fun cs =>
    let ip := cs.takeWhile (fun c => c ≠ '.')
    let rest := cs.dropWhile (fun c => c ≠ '.')
    match rest with
    | [] =>
        if ip ≠ [] ∧ ip.all Char.isDigit then some ((digitsVal ip : Int) : Rat) else Option.none
    | _ :: fp =>
        if (ip ++ fp) ≠ [] ∧ ip.all Char.isDigit ∧ fp.all Char.isDigit ∧ !fp.contains '.' then
          some (((digitsVal ip : Int) : Rat) + (digitsVal fp : Rat) / ((10 : Rat) ^ fp.length))
        else Option.none
  match s.data with
  | '-' :: cs => (core cs).map (fun q => -q)
  | '+' :: cs => core cs
  | cs => core cs

/-- Model of the builtin float(x) conversion applied to a scalar parameter:
ok with the exact numeric value, or the ValueError/TypeError it raises. -/
def pyFloat? : PyVal → Except String Rat
  | .bool b => .ok (if b then 1 else 0)
  | .int n => .ok (n : Rat)
  | .float q => .ok q
  | .str s =>
      match parseDecimal? s with
      | some q => .ok q
      | Option.none => .error "ValueError: could not convert string to float"
  | .none => .error "TypeError: float() argument must be a string or a real number"

/-- Model of re.match applied to an anchored one-character-class pattern of
the shape caret-class-plus-dollar, as all the tools use: it matches iff the
string is a non-empty run of class characters, optionally followed by one
final newline (the Python dollar anchor also matches just before a trailing
newline). -/
def reMatchClass (p : Char → Bool) (s : String) : Bool :=
  let cs := s.data
  let core := if cs.getLast? = some '\n' then cs.dropLast else cs
  !core.isEmpty && core.all p

/-- Character class [a-zA-Z0-9_-] used for order_id / link_id / cashgramId. -/
def isIdChar (c : Char) : Bool := c.isAlphanum || c = '_' || c = '-'

/-- Character class [a-zA-Z0-9] used for refund_id. -/
def isAlnumChar (c : Char) : Bool := c.isAlphanum

/-- Character class of the phone pattern (digits, plus, minus, parentheses,
whitespace). -/
def isPhoneChar (c : Char) : Bool :=
  c.isDigit || c = '+' || c = '-' || c = '(' || c = ')' ||
  c = ' ' || c = '\t' || c = '\n' || c = '\r' || c.toNat = 11 || c.toNat = 12

/-- Model of the minimal email pattern caret [^@]+ at [^@]+ dot [^@]+ dollar:
exactly one at-sign, something before it, and a dot in the interior of the
domain part. -/
def emailMatch (s : String) : Bool :=
  match s.splitOn "@" with
  | [a, b] => !a.isEmpty && ((b.data.drop 1).dropLast.contains '.')
  | _ => false

/-- Model of the Python substring test (needle in haystack) for a non-empty
needle. -/
def strContains (hay needle : String) : Bool := (hay.splitOn needle).length > 1

/-- Gregorian leap-year rule. -/
def isLeapYear (y : Int) : Bool := y % 4 == 0 && (y % 100 != 0 || y % 400 == 0)

/-- Number of days of a month (1-12) in year y. -/
def daysInMonth (y m : Int) : Int :=
  if m = 2 then (if isLeapYear y then 29 else 28)
  else if m = 4 ∨ m = 6 ∨ m = 9 ∨ m = 11 then 30 else 31

/-- Civil date (y, m, d) to a linear day number (standard days-from-civil
algorithm); the order-preserving coordinate in which datetime values are
compared. -/
def daysFromCivil (y m d : Int) : Int :=
  let y2 := if m ≤ 2 then y - 1 else y
  let era := y2 / 400
  let yoe := y2 - era * 400
  let mp := (m + 9) % 12
  let doy := (153 * mp + 2) / 5 + d - 1
  let doe := yoe * 365 + yoe / 4 - yoe / 100 + doy
  era * 146097 + doe - 719468

/-- Model of datetime.strptime(s, "%Y/%m/%d"): three slash-separated decimal
fields (at most 4/2/2 digits), a valid Gregorian calendar date with year at
least 1; the result is its day number. Option.none models the ValueError
strptime raises otherwise. -/
def parse_ymd (s : String) : Option Int :=
  match s.splitOn "/" with
  | [ys, ms, ds] =>
    match strToNat? ys, strToNat? ms, strToNat? ds with
    | some y, some m, some d =>
        if ys.length ≤ 4 ∧ ms.length ≤ 2 ∧ ds.length ≤ 2 ∧
           1 ≤ y ∧ y ≤ 9999 ∧ 1 ≤ m ∧ m ≤ 12 ∧
           1 ≤ d ∧ (d : Int) ≤ daysInMonth (y : Int) (m : Int) then
          some (daysFromCivil (y : Int) (m : Int) (d : Int))
        else Option.none
    | _, _, _ => Option.none
  | _ => Option.none

/-- Fields of the normalized result record shared by every tool and inspected
by the claims: status_code (None until a response or failure is recorded, 0
for a transport failure), the success flag, api_response (the decoded JSON
body, or a raw_text wrapper for non-JSON bodies), and the human-readable
message. The operation-specific echo fields (order_id, cashgram_link, ...)
are not inspected by any claim and are not tracked. -/
structure RespData where
  status_code : Option Int
  success : Bool
  api_response : Option JVal
  message : String

/-- Outcome of one tool invocation that terminated normally: the final
normalized record it yielded, and whether the single HTTP call of step 5 was
performed. -/
structure InvokeResult where
  result : RespData
  httpCalled : Bool

/-- Validation-failure record: the initialized response structure with
success false and only the message filled in. -/
def vfail (msg : String) : RespData :=
  { status_code := Option.none, success := false, api_response := Option.none, message := msg }

/-- Required-parameter check of CreateOrderTool._invoke
(src/cashfree_payments/tools/create_order.py, lines 47-61): the message of
the early failure record, if any parameter of the required set is falsy. -/
def co_required (params : PyDict) : Option String :=
  let missing := (([("order_amount", params.getD "order_amount" PyVal.none),
      ("customer_id", params.getD "customer_id" PyVal.none),
      ("customer_email", params.getD "customer_email" PyVal.none),
      ("customer_phone", params.getD "customer_phone" PyVal.none),
      ("customer_name", params.getD "customer_name" PyVal.none)] :
        List (String × PyVal)).filter (fun kv => !kv.2.truthy)).map (fun kv => kv.1)
  if missing ≠ [] then
    some ("Fatal Error: Required parameters missing: " ++ String.intercalate ", " missing)
  else Option.none

/-- Amount check of CreateOrderTool._invoke (lines 66-76): float conversion
(errors caught locally) and the at-least-1 bound. -/
def co_amount (params : PyDict) : Option String :=
  match pyFloat? (params.getD "order_amount" PyVal.none) with
  | .error _ => some "Fatal Error: order_amount must be a valid number"
  | .ok q =>
      if q < 1 then some "Fatal Error: order_amount must be at least 1" else Option.none

/-- Optional order_id check of CreateOrderTool._invoke (lines 78-90): length
3-45 then character class; len() on a truthy non-string raises. -/
def co_order_id (params : PyDict) : Except String (Option String) :=
  let v := params.getD "order_id" PyVal.none
  if v.truthy then
    match v with
    | .str sid =>
        if !(3 ≤ sid.length ∧ sid.length ≤ 45) then
          .ok (some "Fatal Error: order_id must be between 3 and 45 characters")
        else if !(reMatchClass isIdChar sid) then
          .ok (some
            "Fatal Error: order_id can only contain alphanumeric characters, \x27_\x27 and \x27-\x27")
        else .ok Option.none
    | _ => .error "TypeError: object has no len()"
  else .ok Option.none

/-- Optional order_note check of CreateOrderTool._invoke (lines 92-97). -/
def co_order_note (params : PyDict) : Except String (Option String) :=
  let v := params.getD "order_note" PyVal.none
  if v.truthy then
    match v with
    | .str sn =>
        if !(3 ≤ sn.length ∧ sn.length ≤ 200) then
          .ok (some "Fatal Error: order_note must be between 3 and 200 characters")
        else .ok Option.none
    | _ => .error "TypeError: object has no len()"
  else .ok Option.none

/-- Optional return_url length check of CreateOrderTool._invoke (lines
99-104). -/
def co_return_url (params : PyDict) : Except String (Option String) :=
  let v := params.getD "return_url" PyVal.none
  if v.truthy then
    match v with
    | .str su =>
        if su.length > 250 then
          .ok (some "Fatal Error: return_url must not exceed 250 characters")
        else .ok Option.none
    | _ => .error "TypeError: object has no len()"
  else .ok Option.none

/-- Optional notify_url checks of CreateOrderTool._invoke (lines 106-116):
length, then HTTPS scheme. -/
def co_notify_url (params : PyDict) : Except String (Option String) :=
  let v := params.getD "notify_url" PyVal.none
  if v.truthy then
    match v with
    | .str su =>
        if su.length > 250 then
          .ok (some "Fatal Error: notify_url must not exceed 250 characters")
        else if !(su.startsWith "https://") then
          .ok (some "Fatal Error: notify_url must use HTTPS protocol")
        else .ok Option.none
    | _ => .error "TypeError: object has no len()"
  else .ok Option.none

/-- Credential check of CreateOrderTool._invoke (lines 118-140): id+secret
for client_credentials, the static token for bearer_token, nothing for other
methods. -/
def co_credentials (creds : PyDict) : Option String :=
  let auth_method := creds.getD "auth_method" (.str "client_credentials")
  if auth_method = .str "client_credentials" then
    if !(optTruthy (creds.get "cashfree_client_id")
        && optTruthy (creds.get "cashfree_client_secret")) then
      some "Fatal Error: Cashfree client credentials (Client ID/Secret) are missing."
    else Option.none
  else if auth_method = .str "bearer_token" then
    if !(optTruthy (creds.get "bearer_token")) then
      some "Fatal Error: Cashfree bearer token is missing."
    else Option.none
  else Option.none

/-- Validation and credential phase of CreateOrderTool._invoke
(src/cashfree_payments/tools/create_order.py, lines 26-140), run inside the
outer catch-all try: the checks above in source order, stopping at the first
failure. ok Option.none: every check passed, the tool proceeds to the HTTP
call; ok (some r): a check failed, the tool yields the early record r;
error e: the validation raised a Python exception e. -/
def create_order_validate (params creds : PyDict) : Except String (Option RespData) :=
  match co_required params with
  | some m => .ok (some (vfail m))
  | Option.none =>
  match co_amount params with
  | some m => .ok (some (vfail m))
  | Option.none =>
  match co_order_id params with
  | .error e => .error e
  | .ok (some m) => .ok (some (vfail m))
  | .ok Option.none =>
  match co_order_note params with
  | .error e => .error e
  | .ok (some m) => .ok (some (vfail m))
  | .ok Option.none =>
  match co_return_url params with
  | .error e => .error e
  | .ok (some m) => .ok (some (vfail m))
  | .ok Option.none =>
  match co_notify_url params with
  | .error e => .error e
  | .ok (some m) => .ok (some (vfail m))
  | .ok Option.none =>
  match co_credentials creds with
  | some m => .ok (some (vfail m))
  | Option.none => .ok Option.none

/-- Response-handling phase of CreateOrderTool._invoke (lines 213-236): sets
status_code and success from the received status, records the body, and
refines the message; an error carries the AttributeError raised when a JSON
body is not a dict, together with the record as mutated so far. -/
def create_order_post (st : Nat) (text : String) (json : Option JVal) :
    Except (String × RespData) RespData :=
  let r0 : RespData :=
    { status_code := some (st : Int), success := (st == 200),
      api_response := Option.none, message := "Tool started successfully" }
  match json with
  | Option.none =>
      .ok { r0 with
              api_response := some (.obj [("raw_text", .str text)]),
              message := "API returned non-JSON response with status code " ++ toString st
                ++ ". Response: " ++ text.take 200 }
  | some j =>
    let r1 := { r0 with api_response := some j }
    match j with
    | .obj fs =>
        if st == 200 then
          .ok { r1 with message := "Order created successfully. Order ID: "
            ++ JVal.toStr ((List.lookup "order_id" fs).getD JVal.null) }
        else
          .ok { r1 with message := "API Error: "
            ++ JVal.toStr ((List.lookup "message" fs).getD
                (.str ("API returned error status " ++ toString st))) }
    | _ => .error ("AttributeError: object has no attribute get", r1)

/-- Embedding of CreateOrderTool._invoke
(src/cashfree_payments/tools/create_order.py, lines 12-262). The whole body
runs inside a catch-all try/except, so the invocation always yields a
normalized record: pre-call exceptions and post-call exceptions are both
converted into an Unexpected-Error record with status_code 0. -/
def create_order_invoke (params creds : PyDict) (http : HttpOutcome) : InvokeResult :=
  match create_order_validate params creds with
  | .error e =>
      { result := { status_code := some 0, success := false, api_response := Option.none,
                      message := "Unexpected Error in Tool: " ++ e },
        httpCalled := false }
  | .ok (some r) => { result := r, httpCalled := false }
  | .ok Option.none =>
    match http with
    | .transportError m =>
        { result := { status_code := some 0, success := false, api_response := Option.none,
                        message := "Network Error: Could not connect to API within timeout. Details: " ++ m },
          httpCalled := true }
    | .response st text json =>
      match create_order_post st text json with
      | .ok r => { result := r, httpCalled := true }
      | .error (e, r) =>
          { result := { r with
                          status_code := some 0, success := false,
                          message := "Unexpected Error in Tool: " ++ e },
            httpCalled := true }

/-- Expiry validation of CreateCashgramTool._invoke
(src/tools/create_cashgram.py, lines 71-90): parses linkExpiry with
strptime("%Y/%m/%d") (a ValueError becomes the format message), then rejects
dates not strictly after the current instant, then dates more than 30 days
ahead. Datetimes are modelled on the day-number line: now is the current
instant (whole part: day number, fractional part: time of day), a parsed
date sits at the midnight starting its day. -/
def cashgram_expiry_check (linkExpiry : String) (now : Rat) : Option String :=
  match parse_ymd linkExpiry with
  | Option.none => some "Fatal Error: linkExpiry must be in YYYY/MM/DD format"
  | some d =>
      if (d : Rat) ≤ now then some "Fatal Error: linkExpiry must be a future date"
      else if (d : Rat) > now + 30 then
        some "Fatal Error: linkExpiry cannot be more than 30 days from today"
      else Option.none

/-- Required-parameter check of CreateCashgramTool._invoke
(src/tools/create_cashgram.py, lines 33-46). -/
def cg_required (params : PyDict) : Option String :=
  let missing := (([("cashgramId", params.getD "cashgramId" PyVal.none),
      ("amount", params.getD "amount" PyVal.none),
      ("name", params.getD "name" PyVal.none),
      ("phone", params.getD "phone" PyVal.none),
      ("linkExpiry", params.getD "linkExpiry" PyVal.none)] :
        List (String × PyVal)).filter (fun kv => !kv.2.truthy)).map (fun kv => kv.1)
  if missing ≠ [] then
    some ("Fatal Error: Required parameters missing: " ++ String.intercalate ", " missing)
  else Option.none

/-- cashgramId format check of CreateCashgramTool._invoke (lines 48-57):
length 1-35 then character class; len() on a non-string raises, and this
tool has no catch-all handler. On success the cashgramId string is
returned. -/
def cg_id (params : PyDict) : Except String (Except String String) :=
  match params.getD "cashgramId" PyVal.none with
  | .str cid =>
      if !(1 ≤ cid.length ∧ cid.length ≤ 35) then
        .ok (.error "Fatal Error: cashgramId must be between 1 and 35 characters")
      else if !(reMatchClass isIdChar cid) then
        .ok (.error
          "Fatal Error: cashgramId can only contain alphanumeric characters, \x27_\x27 and \x27-\x27")
      else .ok (.ok cid)
  | _ => .error "TypeError: object has no len()"

/-- Amount check of CreateCashgramTool._invoke (lines 59-69). -/
def cg_amount (params : PyDict) : Option String :=
  match pyFloat? (params.getD "amount" PyVal.none) with
  | .error _ => some "Fatal Error: amount must be a valid number"
  | .ok q => if q < 1 then some "Fatal Error: amount must be >= 1.00" else Option.none

/-- linkExpiry check of CreateCashgramTool._invoke (lines 71-90): strptime on
a non-string raises a TypeError that the except ValueError clause does not
catch; otherwise cashgram_expiry_check applies. -/
def cg_expiry (params : PyDict) (now : Rat) : Except String (Option String) :=
  match params.getD "linkExpiry" PyVal.none with
  | .str sExp => .ok (cashgram_expiry_check sExp now)
  | _ => .error "TypeError: strptime() argument must be str"

/-- Name check of CreateCashgramTool._invoke (lines 92-96): strip() on a
non-string raises. -/
def cg_name (params : PyDict) : Except String (Option String) :=
  match params.getD "name" PyVal.none with
  | .str ns =>
      if ns.trim.length = 0 then .ok (some "Fatal Error: name cannot be empty")
      else .ok Option.none
  | _ => .error "AttributeError: no attribute strip"

/-- Phone check of CreateCashgramTool._invoke (lines 98-102): re.match on a
non-string raises. -/
def cg_phone (params : PyDict) : Except String (Option String) :=
  match params.getD "phone" PyVal.none with
  | .str ps =>
      if !(reMatchClass isPhoneChar ps) then
        .ok (some "Fatal Error: phone number contains invalid characters")
      else .ok Option.none
  | _ => .error "TypeError: expected string or bytes-like object"

/-- Optional email check of CreateCashgramTool._invoke (lines 104-109). -/
def cg_email (params : PyDict) : Except String (Option String) :=
  let v := params.getD "email" PyVal.none
  if v.truthy then
    match v with
    | .str es =>
        if !(emailMatch es) then .ok (some "Fatal Error: Invalid email format")
        else .ok Option.none
    | _ => .error "TypeError: expected string or bytes-like object"
  else .ok Option.none

/-- Validation phase of CreateCashgramTool._invoke
(src/tools/create_cashgram.py, lines 26-109): the checks above in source
order. There is no catch-all handler around it, so an error e is a Python
exception that propagates out of _invoke; ok (.error r) is an early
validation-failure record; ok (.ok cid) means validation passed with
cashgramId cid. -/
def create_cashgram_validate (params : PyDict) (now : Rat) :
    Except String (Except RespData String) :=
  match cg_required params with
  | some m => .ok (.error (vfail m))
  | Option.none =>
  match cg_id params with
  | .error e => .error e
  | .ok (.error m) => .ok (.error (vfail m))
  | .ok (.ok cid) =>
  match cg_amount params with
  | some m => .ok (.error (vfail m))
  | Option.none =>
  match cg_expiry params now with
  | .error e => .error e
  | .ok (some m) => .ok (.error (vfail m))
  | .ok Option.none =>
  match cg_name params with
  | .error e => .error e
  | .ok (some m) => .ok (.error (vfail m))
  | .ok Option.none =>
  match cg_phone params with
  | .error e => .error e
  | .ok (some m) => .ok (.error (vfail m))
  | .ok Option.none =>
  match cg_email params with
  | .error e => .error e
  | .ok (some m) => .ok (.error (vfail m))
  | .ok Option.none => .ok (.ok cid)

/-- Response-handling phase of CreateCashgramTool._invoke (lines 171-215):
records status/success/body and refines the message per status code and
error-message substrings; an error is the AttributeError raised (and
propagated, there being no catch-all) when a JSON body is not a dict. -/
def create_cashgram_post (cid : String) (st : Nat) (text : String) (json : Option JVal) :
    Except String RespData :=
  let r0 : RespData :=
    { status_code := some (st : Int), success := (st == 200),
      api_response := Option.none, message := "" }
  match json with
  | Option.none =>
      .ok { r0 with
              api_response := some (.obj [("raw_text", .str text)]),
              message := "API returned non-JSON response with status code "
                ++ toString st ++ "." }
  | some j =>
    let r1 := { r0 with api_response := some j }
    match j with
    | .obj fs =>
        if st == 200 then
          .ok { r1 with message := "Cashgram created successfully. Cashgram ID: "
            ++ JVal.toStr ((List.lookup "cashgramId" fs).getD JVal.null) }
        else
          let error_message := JVal.toStr ((List.lookup "message" fs).getD
            (.str ("API returned error status " ++ toString st)))
          let msg :=
            if st == 400 then
              if strContains error_message.toLower "duplicate" then
                "Cashgram with ID \x27" ++ cid ++ "\x27 already exists"
              else if strContains error_message.toLower "invalid amount" then
                "Invalid amount specified"
              else if strContains error_message.toLower "invalid date" then
                "Invalid expiry date format or date range"
              else "Cannot create Cashgram: " ++ error_message
            else if st == 401 then "Authentication failed. Please check your credentials"
            else if st == 403 then "Access forbidden. Please check your permissions"
            else error_message
          .ok { r1 with message := msg }
    | _ => .error "AttributeError: object has no attribute get"

/-- Credential check shared by CreateCashgramTool._invoke
(src/tools/create_cashgram.py, lines 117-129) and the tools-side
CreateRefundTool._invoke (src/tools/create_refund.py, lines 92-106):
client_credentials needs id+secret, public_key needs id, secret and public
key; other methods pass through. -/
def pk_credentials (creds : PyDict) : Option String :=
  let auth_method := creds.getD "auth_method" (.str "client_credentials")
  if auth_method = .str "client_credentials" then
    if !(optTruthy (creds.get "cashfree_client_id")
        && optTruthy (creds.get "cashfree_client_secret")) then
      some "Fatal Error: Cashfree client credentials (Client ID/Secret) are missing."
    else Option.none
  else if auth_method = .str "public_key" then
    let missing := (["cashfree_client_id", "cashfree_client_secret",
        "cashfree_public_key"].filter (fun f => !(optTruthy (creds.get f))))
    if missing ≠ [] then
      some ("Fatal Error: Missing required fields for public key auth: "
        ++ String.intercalate ", " missing)
    else Option.none
  else Option.none

/-- Embedding of CreateCashgramTool._invoke (src/tools/create_cashgram.py,
lines 14-223). now is the current instant on the day-number line;
tokenExchange is the outcome of the get_bearer_token network call performed
inside get_auth_headers (public_key being a payout call here); http the
outcome of the createCashgram POST. An overall error is a Python exception
escaping _invoke: unlike create_order there is no catch-all handler. -/
def create_cashgram_invoke (params creds : PyDict) (now : Rat)
    (tokenExchange : Except String String) (http : HttpOutcome) :
    Except String InvokeResult :=
  match create_cashgram_validate params now with
  | .error e => .error e
  | .ok (.error r) => .ok { result := r, httpCalled := false }
  | .ok (.ok cid) =>
    match pk_credentials creds with
    | some m => .ok { result := vfail m, httpCalled := false }
    | Option.none =>
      match get_auth_headers creds false true tokenExchange with
      | .error e =>
          .ok { result := vfail ("Fatal Error: Authentication failed: " ++ e),
                httpCalled := false }
      | .ok _headers =>
        match http with
        | .transportError m =>
            .ok { result := { status_code := some 0, success := false,
                              api_response := Option.none,
                              message := "Network Error: Could not connect to API within timeout. Details: "
                                ++ m },
                  httpCalled := true }
        | .response st text json =>
          match create_cashgram_post cid st text json with
          | .ok r => .ok { result := r, httpCalled := true }
          | .error e => .error e

/-- Model of the Python str rendering of a scalar parameter value, as
interpolated into f-string messages. -/
def PyVal.toStr : PyVal → String
  | .none => "None"
  | .bool true => "True"
  | .bool false => "False"
  | .int n => toString n
  | .float q => if q.den = 1 then toString q.num ++ ".0" else toString q
  | .str s => s

/-- Required-parameter check common to both CreateRefundTool versions
(src/cashfree_payments/tools/create_refund.py lines 30-41 and
src/tools/create_refund.py lines 31-42). -/
def rf_required (params : PyDict) : Option String :=
  let missing := (([("order_id", params.getD "order_id" PyVal.none),
      ("refund_amount", params.getD "refund_amount" PyVal.none),
      ("refund_id", params.getD "refund_id" PyVal.none)] :
        List (String × PyVal)).filter (fun kv => !kv.2.truthy)).map (fun kv => kv.1)
  if missing ≠ [] then
    some ("Fatal Error: Required parameters missing: " ++ String.intercalate ", " missing)
  else Option.none

/-- Refund amount check (strictly positive). -/
def rf_amount (params : PyDict) : Option String :=
  match pyFloat? (params.getD "refund_amount" PyVal.none) with
  | .error _ => some "Fatal Error: refund_amount must be a valid number"
  | .ok q =>
      if q ≤ 0 then some "Fatal Error: refund_amount must be greater than 0" else Option.none

/-- refund_id check: length 3-40 then the alphanumeric-only character class
(no underscores or hyphens, unlike the order/link/cashgram id rule); len()
on a non-string raises. On success the refund_id string is returned. -/
def rf_id (params : PyDict) : Except String (Except String String) :=
  match params.getD "refund_id" PyVal.none with
  | .str rid =>
      if !(3 ≤ rid.length ∧ rid.length ≤ 40) then
        .ok (.error "Fatal Error: refund_id must be between 3 and 40 characters")
      else if !(reMatchClass isAlnumChar rid) then
        .ok (.error "Fatal Error: refund_id must contain only alphanumeric characters")
      else .ok (.ok rid)
  | _ => .error "TypeError: object has no len()"

/-- Optional refund_note length check. -/
def rf_note (params : PyDict) : Except String (Option String) :=
  let v := params.getD "refund_note" PyVal.none
  if v.truthy then
    match v with
    | .str sn =>
        if !(3 ≤ sn.length ∧ sn.length ≤ 100) then
          .ok (some "Fatal Error: refund_note must be between 3 and 100 characters")
        else .ok Option.none
    | _ => .error "TypeError: object has no len()"
  else .ok Option.none

/-- refund_speed membership check (default STANDARD). -/
def rf_speed (params : PyDict) : Option String :=
  let v := params.getD "refund_speed" (.str "STANDARD")
  if v.truthy ∧ v ≠ .str "STANDARD" ∧ v ≠ .str "INSTANT" then
    some "Fatal Error: refund_speed must be either \x27STANDARD\x27 or \x27INSTANT\x27"
  else Option.none

/-- Validation phase common to CreateRefundTool._invoke in both
src/cashfree_payments/tools/create_refund.py (lines 25-82) and
src/tools/create_refund.py (lines 26-84), whose validation code is
identical: the checks above in source order. ok (.ok (oid, rid)) carries the
order_id value and refund_id string for the later messages; ok (.error r)
is an early validation-failure record; error e a Python exception (which
propagates: neither tool has a catch-all). -/
def create_refund_validate (params : PyDict) :
    Except String (Except RespData (PyVal × String)) :=
  match rf_required params with
  | some m => .ok (.error (vfail m))
  | Option.none =>
  match rf_amount params with
  | some m => .ok (.error (vfail m))
  | Option.none =>
  match rf_id params with
  | .error e => .error e
  | .ok (.error m) => .ok (.error (vfail m))
  | .ok (.ok rid) =>
  match rf_note params with
  | .error e => .error e
  | .ok (some m) => .ok (.error (vfail m))
  | .ok Option.none =>
  match rf_speed params with
  | some m => .ok (.error (vfail m))
  | Option.none => .ok (.ok (params.getD "order_id" PyVal.none, rid))

/-- Response-handling phase common to both CreateRefundTool._invoke versions
(src/cashfree_payments/tools/create_refund.py lines 141-180 and
src/tools/create_refund.py lines 139-178): records status/success/body and
refines the message by status code and error-message substrings; an error is
the AttributeError on a non-dict JSON body (which propagates). -/
def create_refund_post (oid : PyVal) (rid : String) (st : Nat) (text : String)
    (json : Option JVal) : Except String RespData :=
  let r0 : RespData :=
    { status_code := some (st : Int), success := (st == 200),
      api_response := Option.none, message := "" }
  match json with
  | Option.none =>
      .ok { r0 with
              api_response := some (.obj [("raw_text", .str text)]),
              message := "API returned non-JSON response with status code "
                ++ toString st ++ "." }
  | some j =>
    let r1 := { r0 with api_response := some j }
    match j with
    | .obj fs =>
        if st == 200 then
          .ok { r1 with message := "Refund created successfully for order " ++ oid.toStr
            ++ ". Refund ID: " ++ rid ++ ", Status: "
            ++ JVal.toStr ((List.lookup "refund_status" fs).getD JVal.null) }
        else
          let error_message := JVal.toStr ((List.lookup "message" fs).getD
            (.str ("API returned error status " ++ toString st)))
          let msg :=
            if st == 400 then
              if strContains error_message.toLower "already refunded" then
                "Refund failed: " ++ error_message
                  ++ ". The payment may have already been fully refunded."
              else if strContains error_message.toLower "insufficient"
                  || strContains error_message.toLower "exceeds" then
                "Refund failed: " ++ error_message
                  ++ ". Refund amount may exceed the available refundable amount."
              else if strContains error_message.toLower "six months"
                  || strContains error_message.toLower "expired" then
                "Refund failed: " ++ error_message
                  ++ ". Refunds can only be initiated within six months of the original transaction."
              else if strContains error_message.toLower "duplicate" then
                "Refund failed: " ++ error_message ++ ". The refund_id may already exist."
              else "Bad Request: " ++ error_message
            else if st == 404 then
              "Order not found: " ++ oid.toStr ++ ". Please verify the order_id."
            else error_message
          .ok { r1 with message := msg }
    | _ => .error "AttributeError: object has no attribute get"

/-- Embedding of CreateRefundTool._invoke of
src/cashfree_payments/tools/create_refund.py (lines 12-191): shared
validation, inline client-credentials / static-bearer headers, one POST,
shared response handling. Exceptions propagate (no catch-all). -/
def pg_create_refund_invoke (params creds : PyDict) (http : HttpOutcome) :
    Except String InvokeResult :=
  match create_refund_validate params with
  | .error e => .error e
  | .ok (.error r) => .ok { result := r, httpCalled := false }
  | .ok (.ok (oid, rid)) =>
    match co_credentials creds with
    | some m => .ok { result := vfail m, httpCalled := false }
    | Option.none =>
      match http with
      | .transportError m =>
          .ok { result := { status_code := some 0, success := false,
                            api_response := Option.none,
                            message := "Network Error: Could not connect to API within timeout. Details: "
                              ++ m },
                httpCalled := true }
      | .response st text json =>
        match create_refund_post oid rid st text json with
        | .ok r => .ok { result := r, httpCalled := true }
        | .error e => .error e

/-- Embedding of CreateRefundTool._invoke of src/tools/create_refund.py
(lines 13-190): shared validation, client-credentials / public-key
credential checks, headers via get_auth_headers (non-payout, with api
version) whose failure is caught, one POST, shared response handling.
Exceptions propagate (no catch-all). -/
def tools_create_refund_invoke (params creds : PyDict)
    (tokenExchange : Except String String) (http : HttpOutcome) :
    Except String InvokeResult :=
  match create_refund_validate params with
  | .error e => .error e
  | .ok (.error r) => .ok { result := r, httpCalled := false }
  | .ok (.ok (oid, rid)) =>
    match pk_credentials creds with
    | some m => .ok { result := vfail m, httpCalled := false }
    | Option.none =>
      match get_auth_headers creds true false tokenExchange with
      | .error e =>
          .ok { result := vfail ("Fatal Error: Authentication failed: " ++ e),
                httpCalled := false }
      | .ok _headers =>
        match http with
        | .transportError m =>
            .ok { result := { status_code := some 0, success := false,
                              api_response := Option.none,
                              message := "Network Error: Could not connect to API within timeout. Details: "
                                ++ m },
                  httpCalled := true }
        | .response st text json =>
          match create_refund_post oid rid st text json with
          | .ok r => .ok { result := r, httpCalled := true }
          | .error e => .error e

/-- Required-parameter check of CreatePaymentLinkTool._invoke
(src/cashfree_payments/tools/create_payment_link.py, lines 31-43). -/
def pl_required (params : PyDict) : Option String :=
  let missing := (([("link_id", params.getD "link_id" PyVal.none),
      ("link_amount", params.getD "link_amount" PyVal.none),
      ("link_purpose", params.getD "link_purpose" PyVal.none),
      ("customer_phone", params.getD "customer_phone" PyVal.none)] :
        List (String × PyVal)).filter (fun kv => !kv.2.truthy)).map (fun kv => kv.1)
  if missing ≠ [] then
    some ("Fatal Error: Required parameters missing: " ++ String.intercalate ", " missing)
  else Option.none

/-- link_id format check of CreatePaymentLinkTool._invoke (lines 45-54):
length 1-50 then the character class [a-zA-Z0-9_-], which permits hyphens
and underscores. -/
def pl_id (params : PyDict) : Except String (Option String) :=
  match params.getD "link_id" PyVal.none with
  | .str lid =>
      if !(1 ≤ lid.length ∧ lid.length ≤ 50) then
        .ok (some "Fatal Error: link_id must be between 1 and 50 characters")
      else if !(reMatchClass isIdChar lid) then
        .ok (some
          "Fatal Error: link_id can only contain alphanumeric characters, \x27_\x27 and \x27-\x27")
      else .ok Option.none
  | _ => .error "TypeError: object has no len()"

/-- link_amount check (strictly positive), returning the amount for the
partial-amount comparison. -/
def pl_amount (params : PyDict) : Except String Rat :=
  match pyFloat? (params.getD "link_amount" PyVal.none) with
  | .error _ => .error "Fatal Error: link_amount must be a valid number"
  | .ok q =>
      if q ≤ 0 then .error "Fatal Error: link_amount must be greater than 0" else .ok q

/-- link_purpose length check (at most 500); len() on a non-string raises. -/
def pl_purpose (params : PyDict) : Except String (Option String) :=
  match params.getD "link_purpose" PyVal.none with
  | .str sp =>
      if sp.length > 500 then
        .ok (some "Fatal Error: link_purpose must not exceed 500 characters")
      else .ok Option.none
  | _ => .error "TypeError: object has no len()"

/-- Optional minimum-partial-amount check (must be below the full amount). -/
def pl_partial (params : PyDict) (amountQ : Rat) : Option String :=
  let v := params.getD "link_minimum_partial_amount" PyVal.none
  if v.truthy then
    match pyFloat? v with
    | .error _ => some "Fatal Error: link_minimum_partial_amount must be a valid number"
    | .ok pq =>
        if pq ≥ amountQ then
          some "Fatal Error: link_minimum_partial_amount must be less than link_amount"
        else Option.none
  else Option.none

/-- Optional return_url length check. -/
def pl_return_url (params : PyDict) : Except String (Option String) :=
  let v := params.getD "return_url" PyVal.none
  if v.truthy then
    match v with
    | .str su =>
        if su.length > 250 then
          .ok (some "Fatal Error: return_url must not exceed 250 characters")
        else .ok Option.none
    | _ => .error "TypeError: object has no len()"
  else .ok Option.none

/-- Optional notify_url HTTPS check. -/
def pl_notify_url (params : PyDict) : Except String (Option String) :=
  let v := params.getD "notify_url" PyVal.none
  if v.truthy then
    match v with
    | .str su =>
        if !(su.startsWith "https://") then
          .ok (some "Fatal Error: notify_url must use HTTPS protocol")
        else .ok Option.none
    | _ => .error "AttributeError: no attribute startswith"
  else .ok Option.none

/-- Validation phase of CreatePaymentLinkTool._invoke
(src/cashfree_payments/tools/create_payment_link.py, lines 24-101): the
checks above in source order. ok (some r) is an early validation-failure
record, ok Option.none a pass; error e a Python exception. -/
def create_payment_link_validate (params : PyDict) : Except String (Option RespData) :=
  match pl_required params with
  | some m => .ok (some (vfail m))
  | Option.none =>
  match pl_id params with
  | .error e => .error e
  | .ok (some m) => .ok (some (vfail m))
  | .ok Option.none =>
  match pl_amount params with
  | .error m => .ok (some (vfail m))
  | .ok amountQ =>
  match pl_purpose params with
  | .error e => .error e
  | .ok (some m) => .ok (some (vfail m))
  | .ok Option.none =>
  match pl_partial params amountQ with
  | some m => .ok (some (vfail m))
  | Option.none =>
  match pl_return_url params with
  | .error e => .error e
  | .ok (some m) => .ok (some (vfail m))
  | .ok Option.none =>
  match pl_notify_url params with
  | .error e => .error e
  | .ok (some m) => .ok (some (vfail m))
  | .ok Option.none => .ok Option.none

/-- Decidable equality of Except outcomes (used to evaluate the embedding on
concrete inputs). -/
instance {e a : Type} [DecidableEq e] [DecidableEq a] : DecidableEq (Except e a) := fun
  | .ok x, .ok y =>
      if h : x = y then isTrue (by rw [h]) else isFalse (by intro hc; cases hc; exact h rfl)
  | .ok _, .error _ => isFalse (by intro h; cases h)
  | .error _, .ok _ => isFalse (by intro h; cases h)
  | .error x, .error y =>
      if h : x = y then isTrue (by rw [h]) else isFalse (by intro hc; cases hc; exact h rfl)

/-- Helper: bind on a successful Except computation. -/
theorem exc_bind_ok {ε α β : Type} (a : α) (f : α → Except ε β) :
    (Except.ok a >>= f) = f a := rfl

/-- Helper: bind on a failed Except computation. -/
theorem exc_bind_error {ε α β : Type} (e : ε) (f : α → Except ε β) :
    ((Except.error e : Except ε α) >>= f) = .error e := rfl

/-- Helper: throw in the Except monad is the error constructor. -/
theorem exc_throw {ε α : Type} (e : ε) : (throw e : Except ε α) = .error e := rfl

/-- Helper: pure in the Except monad is the ok constructor. -/
theorem exc_pure {ε α : Type} (a : α) : (pure a : Except ε α) = .ok a := rfl

/-- Helper: fields of a validation-failure record. -/
theorem vfail_fields (m : String) :
    (vfail m).status_code = Option.none ∧ (vfail m).success = false ∧
    (vfail m).api_response = Option.none ∧ (vfail m).message = m :=
  ⟨rfl, rfl, rfl, rfl⟩

example : pyFloat? (.str "0") = .ok 0 := rfl
example : pyFloat? (.str "100") = .ok 100 := rfl
example : pyFloat? (.str "12.5") = .ok (25/2 : Rat) := by with_unfolding_all rfl
example : (pyFloat? (.str "ab")).isOk = false := rfl

/-- Helper: an invocation whose validation phase returned an early record r
yields r with no HTTP call. -/
theorem create_order_invoke_of_validate_fail (params creds : PyDict) (http : HttpOutcome)
    (r : RespData) (hv : create_order_validate params creds = .ok (some r)) :
    create_order_invoke params creds http = { result := r, httpCalled := false } := by
  unfold create_order_invoke
  rw [hv]

/-- Property of a validation-phase outcome: an early validation-failure
record was produced (success false, no status code recorded yet). -/
def IsVFail : Except String (Option RespData) → Prop
  | .ok (some r) => r.success = false ∧ r.status_code = Option.none
  | _ => False

/-- Helper: an order invocation whose validation phase failed yields that
failure with no HTTP call. -/
theorem create_order_invoke_isvfail (params creds : PyDict) (http : HttpOutcome)
    (h : IsVFail (create_order_validate params creds)) :
    (create_order_invoke params creds http).httpCalled = false ∧
    (create_order_invoke params creds http).result.success = false ∧
    (create_order_invoke params creds http).result.status_code = Option.none := by
  cases hv : create_order_validate params creds with
  | error e => rw [hv] at h; cases h
  | ok o =>
    cases o with
    | none => rw [hv] at h; cases h
    | some r =>
      rw [hv] at h
      rw [create_order_invoke_of_validate_fail params creds http r hv]
      exact ⟨rfl, h.1, h.2⟩

/-- Helper: the order validation phase ends in a validation-failure record
as soon as one of its first three checks fails. -/
theorem create_order_validate_isvfail (params creds : PyDict)
    (h : (∃ m, co_required params = some m) ∨
      (co_required params = Option.none ∧ ∃ m, co_amount params = some m) ∨
      (co_required params = Option.none ∧ co_amount params = Option.none ∧
        ∃ m, co_order_id params = .ok (some m))) :
    IsVFail (create_order_validate params creds) := by
  unfold create_order_validate
  rcases h with ⟨m, hm⟩ | ⟨h0, m, hm⟩ | ⟨h0, h1, m, hm⟩
  · rw [hm]; exact ⟨rfl, rfl⟩
  · rw [h0, hm]; exact ⟨rfl, rfl⟩
  · rw [h0, h1, hm]; exact ⟨rfl, rfl⟩

/-- C7: an order invocation with order_amount equal to zero (as int, float or
the string zero), or with a 2-character order_id, yields a structured
validation-failure record (success false, no status code recorded) and
performs no HTTP call, whatever the other parameters, the credentials and
the would-be network outcome. -/
theorem C7_order_zero_amount_short_id_no_http (params creds : PyDict) (http : HttpOutcome) :
    ((params.getD "order_amount" PyVal.none = .int 0 ∨
      params.getD "order_amount" PyVal.none = .float 0 ∨
      params.getD "order_amount" PyVal.none = .str "0") →
      (create_order_invoke params creds http).httpCalled = false ∧
      (create_order_invoke params creds http).result.success = false ∧
      (create_order_invoke params creds http).result.status_code = Option.none) ∧
    ((∃ s, params.getD "order_id" PyVal.none = .str s ∧ s.length = 2) →
      (create_order_invoke params creds http).httpCalled = false ∧
      (create_order_invoke params creds http).result.success = false ∧
      (create_order_invoke params creds http).result.status_code = Option.none) := by
  have hpf0 : pyFloat? (.str "0") = .ok 0 := by with_unfolding_all rfl
  have h01 : ((0 : Rat) < 1) := by norm_num
  constructor
  · intro h
    refine create_order_invoke_isvfail params creds http
      (create_order_validate_isvfail params creds ?_)
    rcases h with h | h | h
    · refine .inl ?_
      unfold co_required
      simp [h, PyVal.truthy, List.filter]
    · refine .inl ?_
      unfold co_required
      simp [h, PyVal.truthy, List.filter]
    · cases hreq : co_required params with
      | some m => exact .inl ⟨m, rfl⟩
      | none =>
        refine .inr (.inl ⟨rfl, ?_⟩)
        unfold co_amount
        simp [h, hpf0, h01]
  · rintro ⟨s, hs, hlen⟩
    have hsne : s ≠ "" := by
      intro he
      rw [he] at hlen
      simp at hlen
    refine create_order_invoke_isvfail params creds http
      (create_order_validate_isvfail params creds ?_)
    cases hreq : co_required params with
    | some m => exact .inl ⟨m, rfl⟩
    | none =>
      cases hamt : co_amount params with
      | some m => exact .inr (.inl ⟨rfl, m, rfl⟩)
      | none =>
        refine .inr (.inr ⟨rfl, rfl, ?_⟩)
        have h32 : ¬(3 ≤ s.length ∧ s.length ≤ 45) := by
          rw [hlen]
          omega
        unfold co_order_id
        simp [hs, PyVal.truthy, hsne, h32]

/-- C7 witness: order_amount 0 as a string with every other required
parameter present, and a 2-character order_id with a valid amount; in both
cases no HTTP call is performed. -/
theorem C7_order_zero_amount_short_id_no_http_witness :
    ((create_order_invoke
        [("order_amount", .str "0"), ("customer_id", .str "c1"),
         ("customer_email", .str "c"), ("customer_phone", .str "9999"),
         ("customer_name", .str "C")]
        [("cashfree_client_id", .str "id"), ("cashfree_client_secret", .str "sec")]
        (.response 200 "" (some (.obj [])))).httpCalled = false) ∧
    ((create_order_invoke
        [("order_amount", .str "100"), ("order_id", .str "ab"), ("customer_id", .str "c1"),
         ("customer_email", .str "c"), ("customer_phone", .str "9999"),
         ("customer_name", .str "C")]
        [("cashfree_client_id", .str "id"), ("cashfree_client_secret", .str "sec")]
        (.response 200 "" (some (.obj [])))).httpCalled = false) :=
  ⟨((C7_order_zero_amount_short_id_no_http
      [("order_amount", .str "0"), ("customer_id", .str "c1"),
       ("customer_email", .str "c"), ("customer_phone", .str "9999"),
       ("customer_name", .str "C")]
      [("cashfree_client_id", .str "id"), ("cashfree_client_secret", .str "sec")]
      (.response 200 "" (some (.obj [])))).1 (.inr (.inr rfl))).1,
   ((C7_order_zero_amount_short_id_no_http
      [("order_amount", .str "100"), ("order_id", .str "ab"), ("customer_id", .str "c1"),
       ("customer_email", .str "c"), ("customer_phone", .str "9999"),
       ("customer_name", .str "C")]
      [("cashfree_client_id", .str "id"), ("cashfree_client_secret", .str "sec")]
      (.response 200 "" (some (.obj [])))).2 ⟨"ab", rfl, rfl⟩).1⟩

/-- Property of a refund-validation outcome: an early validation-failure
record was produced. -/
def IsRVFail : Except String (Except RespData (PyVal × String)) → Prop
  | .ok (.error r) => r.success = false ∧ r.status_code = Option.none
  | _ => False

/-- Helper: the refund validation ends in a validation-failure record as soon
as one of its first three checks fails. -/
theorem create_refund_validate_isvfail (params : PyDict)
    (h : (∃ m, rf_required params = some m) ∨
      (rf_required params = Option.none ∧ ∃ m, rf_amount params = some m) ∨
      (rf_required params = Option.none ∧ rf_amount params = Option.none ∧
        ∃ m, rf_id params = .ok (.error m))) :
    IsRVFail (create_refund_validate params) := by
  unfold create_refund_validate
  rcases h with ⟨m, hm⟩ | ⟨h0, m, hm⟩ | ⟨h0, h1, m, hm⟩
  · rw [hm]; exact ⟨rfl, rfl⟩
  · rw [h0, hm]; exact ⟨rfl, rfl⟩
  · rw [h0, h1, hm]; exact ⟨rfl, rfl⟩

/-- Helper: a pg-refund invocation whose validation failed yields that
failure with no HTTP call. -/
theorem pg_create_refund_invoke_isvfail (params creds : PyDict) (http : HttpOutcome)
    (h : IsRVFail (create_refund_validate params)) :
    ∃ res, pg_create_refund_invoke params creds http = .ok res ∧
      res.httpCalled = false ∧ res.result.success = false ∧
      res.result.status_code = Option.none := by
  unfold pg_create_refund_invoke
  cases hv : create_refund_validate params with
  | error e => rw [hv] at h; cases h
  | ok o =>
    cases o with
    | ok v => rw [hv] at h; cases h
    | error r =>
      rw [hv] at h
      exact ⟨_, rfl, rfl, h.1, h.2⟩

/-- Helper: a tools-refund invocation whose validation failed yields that
failure with no HTTP call. -/
theorem tools_create_refund_invoke_isvfail (params creds : PyDict)
    (tok : Except String String) (http : HttpOutcome)
    (h : IsRVFail (create_refund_validate params)) :
    ∃ res, tools_create_refund_invoke params creds tok http = .ok res ∧
      res.httpCalled = false ∧ res.result.success = false ∧
      res.result.status_code = Option.none := by
  unfold tools_create_refund_invoke
  cases hv : create_refund_validate params with
  | error e => rw [hv] at h; cases h
  | ok o =>
    cases o with
    | ok v => rw [hv] at h; cases h
    | error r =>
      rw [hv] at h
      exact ⟨_, rfl, rfl, h.1, h.2⟩

/-- Helper: a string containing a hyphen never matches the anchored
alphanumeric-only class pattern. -/
theorem reMatchClass_alnum_false_of_hyphen (s : String) (hmem : '-' ∈ s.data) :
    reMatchClass isAlnumChar s = false := by
  unfold reMatchClass
  dsimp only
  have hcore : '-' ∈ (if s.data.getLast? = some '\n' then s.data.dropLast else s.data) := by
    by_cases hl : s.data.getLast? = some '\n'
    · rw [if_pos hl]
      rcases List.eq_nil_or_concat s.data with hnil | ⟨l2, b, hconcat⟩
      · rw [hnil] at hmem; cases hmem
      · have hb : b = '\n' := by
          rw [hconcat] at hl
          simpa [List.getLast?_concat] using hl
        rw [hconcat, List.concat_eq_append, List.dropLast_concat]
        rw [hconcat, List.concat_eq_append] at hmem
        rcases List.mem_append.1 hmem with h | h
        · exact h
        · exfalso
          rw [hb] at h
          simp at h
    · rw [if_neg hl]
      exact hmem
  have hall : ((if s.data.getLast? = some '\n' then s.data.dropLast else s.data).all
      isAlnumChar) = false := by
    rw [List.all_eq_false]
    exact ⟨'-', hcore, by decide⟩
  rw [hall]
  simp

/-- Helper: a non-empty string all of whose characters lie in the
[a-zA-Z0-9_-] class matches the anchored id-class pattern. -/
theorem reMatchClass_id_true (s : String) (hne : s.data ≠ [])
    (hall : s.data.all isIdChar = true) : reMatchClass isIdChar s = true := by
  unfold reMatchClass
  dsimp only
  have hl : s.data.getLast? ≠ some '\n' := by
    intro hl
    have hmem : '\n' ∈ s.data := by
      rcases List.eq_nil_or_concat s.data with hnil | ⟨l2, b, hconcat⟩
      · exact absurd hnil hne
      · have hb : b = '\n' := by
          rw [hconcat] at hl
          simpa [List.getLast?_concat] using hl
        rw [hconcat, List.concat_eq_append, hb]
        exact List.mem_append.2 (.inr (by simp))
    have hid := (List.all_eq_true.1 hall) _ hmem
    simp [isIdChar] at hid
  rw [if_neg hl, hall]
  simp [hne]

/-- C8: in both refund tools a refund_id containing a hyphen always fails
validation (no HTTP call, success false): the refund rule is
alphanumeric-only; whereas in the payment-link tool a link_id containing a
hyphen passes the whole validation (with the other required fields valid),
because its character class [a-zA-Z0-9_-] permits hyphens. -/
theorem C8_refund_hyphen_vs_link_hyphen :
    (∀ params creds : PyDict, ∀ tok : Except String String, ∀ http : HttpOutcome,
      ∀ rid : String, params.getD "refund_id" PyVal.none = .str rid → '-' ∈ rid.data →
      (∃ res, pg_create_refund_invoke params creds http = .ok res ∧
        res.httpCalled = false ∧ res.result.success = false ∧
        res.result.status_code = Option.none) ∧
      (∃ res, tools_create_refund_invoke params creds tok http = .ok res ∧
        res.httpCalled = false ∧ res.result.success = false ∧
        res.result.status_code = Option.none)) ∧
    (∀ lid : String, 1 ≤ lid.length → lid.length ≤ 50 → lid.data.all isIdChar = true →
      '-' ∈ lid.data →
      create_payment_link_validate
        [("link_id", .str lid), ("link_amount", .str "100"),
         ("link_purpose", .str "test"), ("customer_phone", .str "9999999999")] =
        .ok Option.none) := by
  constructor
  · intro params creds tok http rid hrid hmem
    have hrv : IsRVFail (create_refund_validate params) := by
      refine create_refund_validate_isvfail params ?_
      cases hreq : rf_required params with
      | some m => exact .inl ⟨m, rfl⟩
      | none =>
        cases hamt : rf_amount params with
        | some m => exact .inr (.inl ⟨rfl, m, rfl⟩)
        | none =>
          refine .inr (.inr ⟨rfl, rfl, ?_⟩)
          have hre := reMatchClass_alnum_false_of_hyphen rid hmem
          unfold rf_id
          rw [hrid]
          by_cases hlen : (3 ≤ rid.length ∧ rid.length ≤ 40)
          · simp [hlen, hre]
          · simp [hlen]
    exact ⟨pg_create_refund_invoke_isvfail params creds http hrv,
      tools_create_refund_invoke_isvfail params creds tok http hrv⟩
  · intro lid h1 h50 hall hmem
    have hne : lid.data ≠ [] := by
      intro he
      rw [String.length, he] at h1
      simp at h1
    have hnes : lid ≠ "" := by
      intro he
      rw [he] at hne
      exact hne rfl
    have hre := reMatchClass_id_true lid hne hall
    have hreq : pl_required
        [("link_id", .str lid), ("link_amount", .str "100"),
         ("link_purpose", .str "test"), ("customer_phone", .str "9999999999")] =
        Option.none := by
      unfold pl_required
      simp [PyDict.getD, PyDict.get, List.lookup, PyVal.truthy, List.filter, hnes]
    have hid : pl_id
        [("link_id", .str lid), ("link_amount", .str "100"),
         ("link_purpose", .str "test"), ("customer_phone", .str "9999999999")] =
        .ok Option.none := by
      unfold pl_id
      simp [PyDict.getD, PyDict.get, List.lookup, h1, h50, hre]
    have hamt : pl_amount
        [("link_id", .str lid), ("link_amount", .str "100"),
         ("link_purpose", .str "test"), ("customer_phone", .str "9999999999")] =
        .ok 100 := by
      have hpf : pyFloat? (.str "100") = .ok 100 := by with_unfolding_all rfl
      unfold pl_amount
      rw [show PyDict.getD [("link_id", PyVal.str lid), ("link_amount", PyVal.str "100"),
        ("link_purpose", PyVal.str "test"),
        ("customer_phone", PyVal.str "9999999999")] "link_amount" PyVal.none
          = PyVal.str "100" from rfl]
      rw [hpf]
      norm_num
    have hpur : pl_purpose
        [("link_id", .str lid), ("link_amount", .str "100"),
         ("link_purpose", .str "test"), ("customer_phone", .str "9999999999")] =
        .ok Option.none := by with_unfolding_all rfl
    have hpart : pl_partial
        [("link_id", .str lid), ("link_amount", .str "100"),
         ("link_purpose", .str "test"), ("customer_phone", .str "9999999999")] 100 =
        Option.none := by with_unfolding_all rfl
    have hret : pl_return_url
        [("link_id", .str lid), ("link_amount", .str "100"),
         ("link_purpose", .str "test"), ("customer_phone", .str "9999999999")] =
        .ok Option.none := by with_unfolding_all rfl
    have hnot : pl_notify_url
        [("link_id", .str lid), ("link_amount", .str "100"),
         ("link_purpose", .str "test"), ("customer_phone", .str "9999999999")] =
        .ok Option.none := by with_unfolding_all rfl
    unfold create_payment_link_validate
    rw [hreq, hid, hamt, hpur]
    dsimp only
    rw [hpart, hret, hnot]

/-- C8 witness: refund_id ab-c is rejected by both refund tools without an
HTTP call; link_id l-1 passes the whole payment-link validation. -/
theorem C8_refund_hyphen_vs_link_hyphen_witness :
    ((∃ res, pg_create_refund_invoke
        [("order_id", .str "ord1"), ("refund_amount", .str "10"), ("refund_id", .str "ab-c")]
        [("cashfree_client_id", .str "id"), ("cashfree_client_secret", .str "sec")]
        (.response 200 "" (some (.obj []))) = .ok res ∧
      res.httpCalled = false ∧ res.result.success = false ∧
      res.result.status_code = Option.none) ∧
     (∃ res, tools_create_refund_invoke
        [("order_id", .str "ord1"), ("refund_amount", .str "10"), ("refund_id", .str "ab-c")]
        [("cashfree_client_id", .str "id"), ("cashfree_client_secret", .str "sec")]
        (.ok "T") (.response 200 "" (some (.obj []))) = .ok res ∧
      res.httpCalled = false ∧ res.result.success = false ∧
      res.result.status_code = Option.none)) ∧
    (create_payment_link_validate
        [("link_id", .str "l-1"), ("link_amount", .str "100"),
         ("link_purpose", .str "test"), ("customer_phone", .str "9999999999")] =
      .ok Option.none) :=
  ⟨(C8_refund_hyphen_vs_link_hyphen.1
      [("order_id", .str "ord1"), ("refund_amount", .str "10"), ("refund_id", .str "ab-c")]
      [("cashfree_client_id", .str "id"), ("cashfree_client_secret", .str "sec")]
      (.ok "T") (.response 200 "" (some (.obj []))) "ab-c" rfl (by decide)),
   (C8_refund_hyphen_vs_link_hyphen.2 "l-1" (by decide) (by decide) (by decide) (by decide))⟩

/-- C5: with the required cashgram parameters present and the earlier checks
passing, a linkExpiry parsing to the current day fails validation (the
expiry must be strictly in the future), one parsing to 31 days from the
current day fails validation (more than 30 days ahead), and one parsing to
29 days ahead passes the expiry validation; the failing cases yield the
early record without any HTTP call. The current instant is d0 + t on the
day-number line (day d0, time-of-day fraction t). -/
theorem C5_cashgram_expiry_window (params creds : PyDict) (now t : Rat) (d0 : Int)
    (tok : Except String String) (http : HttpOutcome) (cid sExp : String)
    (hnow : now = (d0 : Rat) + t) (ht0 : 0 ≤ t) (ht1 : t < 1)
    (hreq : cg_required params = Option.none)
    (hid : cg_id params = .ok (.ok cid))
    (hamt : cg_amount params = Option.none)
    (hexp : params.getD "linkExpiry" PyVal.none = .str sExp) :
    (parse_ymd sExp = some d0 →
      create_cashgram_invoke params creds now tok http =
        .ok { result := vfail "Fatal Error: linkExpiry must be a future date",
              httpCalled := false }) ∧
    (parse_ymd sExp = some (d0 + 31) →
      create_cashgram_invoke params creds now tok http =
        .ok { result := vfail "Fatal Error: linkExpiry cannot be more than 30 days from today",
              httpCalled := false }) ∧
    (parse_ymd sExp = some (d0 + 29) →
      cashgram_expiry_check sExp now = Option.none) := by
  refine ⟨?_, ?_, ?_⟩
  · intro hp
    have hchk : cashgram_expiry_check sExp now =
        some "Fatal Error: linkExpiry must be a future date" := by
      unfold cashgram_expiry_check
      rw [hp]
      dsimp only
      rw [if_pos]
      rw [hnow]
      linarith
    have hval : create_cashgram_validate params now =
        .ok (.error (vfail "Fatal Error: linkExpiry must be a future date")) := by
      unfold create_cashgram_validate
      rw [hreq, hid, hamt]
      dsimp only
      unfold cg_expiry
      rw [hexp]
      dsimp only
      rw [hchk]
    unfold create_cashgram_invoke
    rw [hval]
  · intro hp
    have hchk : cashgram_expiry_check sExp now =
        some "Fatal Error: linkExpiry cannot be more than 30 days from today" := by
      unfold cashgram_expiry_check
      rw [hp]
      dsimp only
      rw [if_neg, if_pos]
      · rw [hnow]
        push_cast
        linarith
      · rw [hnow]
        push_cast
        intro hcon
        linarith
    have hval : create_cashgram_validate params now =
        .ok (.error (vfail "Fatal Error: linkExpiry cannot be more than 30 days from today")) := by
      unfold create_cashgram_validate
      rw [hreq, hid, hamt]
      dsimp only
      unfold cg_expiry
      rw [hexp]
      dsimp only
      rw [hchk]
    unfold create_cashgram_invoke
    rw [hval]
  · intro hp
    unfold cashgram_expiry_check
    rw [hp]
    dsimp only
    rw [if_neg, if_neg]
    · rw [hnow]
      push_cast
      intro hcon
      linarith
    · rw [hnow]
      push_cast
      intro hcon
      linarith

set_option maxRecDepth 4000 in
/-- C5 witness: with the current instant at noon of 2026/10/12, linkExpiry
2026/10/12 (today) and 2026/11/12 (31 days ahead) fail validation with no
HTTP call, while 2026/11/10 (29 days ahead) passes the expiry check. -/
theorem C5_cashgram_expiry_window_witness :
    (create_cashgram_invoke
        [("cashgramId", .str "cg1"), ("amount", .str "10"), ("name", .str "Al"),
         ("phone", .str "999"), ("linkExpiry", .str "2026/10/12")]
        [] (((20738 : Int) : Rat) + 1/2) (.ok "T")
        (.response 200 "" (some (.obj []))) =
      .ok { result := vfail "Fatal Error: linkExpiry must be a future date",
            httpCalled := false }) ∧
    (create_cashgram_invoke
        [("cashgramId", .str "cg1"), ("amount", .str "10"), ("name", .str "Al"),
         ("phone", .str "999"), ("linkExpiry", .str "2026/11/12")]
        [] (((20738 : Int) : Rat) + 1/2) (.ok "T")
        (.response 200 "" (some (.obj []))) =
      .ok { result := vfail "Fatal Error: linkExpiry cannot be more than 30 days from today",
            httpCalled := false }) ∧
    (cashgram_expiry_check "2026/11/10" (((20738 : Int) : Rat) + 1/2) =
      Option.none) := by
  refine ⟨?_, ?_, ?_⟩
  · exact (C5_cashgram_expiry_window
      [("cashgramId", .str "cg1"), ("amount", .str "10"), ("name", .str "Al"),
       ("phone", .str "999"), ("linkExpiry", .str "2026/10/12")]
      [] (((20738 : Int) : Rat) + 1/2) (1/2) ((20738 : Int))
      (.ok "T") (.response 200 "" (some (.obj []))) "cg1" "2026/10/12"
      rfl (by norm_num) (by norm_num)
      (by with_unfolding_all rfl) (by with_unfolding_all rfl) (by with_unfolding_all rfl)
      rfl).1 (by with_unfolding_all rfl)
  · exact (C5_cashgram_expiry_window
      [("cashgramId", .str "cg1"), ("amount", .str "10"), ("name", .str "Al"),
       ("phone", .str "999"), ("linkExpiry", .str "2026/11/12")]
      [] (((20738 : Int) : Rat) + 1/2) (1/2) ((20738 : Int))
      (.ok "T") (.response 200 "" (some (.obj []))) "cg1" "2026/11/12"
      rfl (by norm_num) (by norm_num)
      (by with_unfolding_all rfl) (by with_unfolding_all rfl) (by with_unfolding_all rfl)
      rfl).2.1 (by with_unfolding_all rfl)
  · exact (C5_cashgram_expiry_window
      [("cashgramId", .str "cg1"), ("amount", .str "10"), ("name", .str "Al"),
       ("phone", .str "999"), ("linkExpiry", .str "2026/11/10")]
      [] (((20738 : Int) : Rat) + 1/2) (1/2) ((20738 : Int))
      (.ok "T") (.response 200 "" (some (.obj []))) "cg1" "2026/11/10"
      rfl (by norm_num) (by norm_num)
      (by with_unfolding_all rfl) (by with_unfolding_all rfl) (by with_unfolding_all rfl)
      rfl).2.2 (by with_unfolding_all rfl)

/-- Helper: fields of a successfully post-processed order response. -/
theorem create_order_post_ok_fields (st : Nat) (text : String) (json : Option JVal)
    (r : RespData) (h : create_order_post st text json = .ok r) :
    r.success = (st == 200) ∧ r.status_code = some (st : Int) := by
  unfold create_order_post at h
  dsimp only at h
  split at h
  · cases h
    exact ⟨rfl, rfl⟩
  · split at h
    · split at h <;> (cases h; exact ⟨rfl, rfl⟩)
    · cases h

/-- Helper: the order post-processing raises only on a JSON body that is not
a dict, and then carries the partially updated record. -/
theorem create_order_post_error_fields (st : Nat) (text : String) (json : Option JVal)
    (e : String) (r : RespData) (h : create_order_post st text json = .error (e, r)) :
    r.success = (st == 200) := by
  unfold create_order_post at h
  dsimp only at h
  split at h
  · cases h
  · split at h
    · split at h <;> cases h
    · cases h
      rfl

/-- Helper: fields of a successfully post-processed cashgram response. -/
theorem create_cashgram_post_ok_fields (cid : String) (st : Nat) (text : String)
    (json : Option JVal) (r : RespData) (h : create_cashgram_post cid st text json = .ok r) :
    r.success = (st == 200) ∧ r.status_code = some (st : Int) := by
  unfold create_cashgram_post at h
  dsimp only at h
  split at h
  · cases h
    exact ⟨rfl, rfl⟩
  · split at h
    · split at h <;> (cases h; exact ⟨rfl, rfl⟩)
    · cases h

/-- Helper: fields of a successfully post-processed refund response. -/
theorem create_refund_post_ok_fields (oid : PyVal) (rid : String) (st : Nat) (text : String)
    (json : Option JVal) (r : RespData) (h : create_refund_post oid rid st text json = .ok r) :
    r.success = (st == 200) ∧ r.status_code = some (st : Int) := by
  unfold create_refund_post at h
  dsimp only at h
  split at h
  · cases h
    exact ⟨rfl, rfl⟩
  · split at h
    · split at h <;> (cases h; exact ⟨rfl, rfl⟩)
    · cases h

/-- Helper: every early record of the cashgram validation has success false
and no status code. -/
theorem create_cashgram_validate_fail_fields (params : PyDict) (now : Rat) (r : RespData)
    (h : create_cashgram_validate params now = .ok (.error r)) :
    r.success = false ∧ r.status_code = Option.none := by
  unfold create_cashgram_validate at h
  repeat
    first
    | (cases h; exact ⟨rfl, rfl⟩)
    | cases h
    | split at h

/-- Helper: every early record of the refund validation has success false
and no status code. -/
theorem create_refund_validate_fail_fields (params : PyDict) (r : RespData)
    (h : create_refund_validate params = .ok (.error r)) :
    r.success = false ∧ r.status_code = Option.none := by
  unfold create_refund_validate at h
  repeat
    first
    | (cases h; exact ⟨rfl, rfl⟩)
    | cases h
    | split at h

/-- Helper: whenever a cashgram invocation terminates normally, the success
flag of its record is the status-is-200 test when the HTTP call was made,
false when it was not, and false with status code 0 on a transport
failure. -/
theorem create_cashgram_invoke_success (params creds : PyDict) (now : Rat)
    (tok : Except String String) (http : HttpOutcome) (res : InvokeResult)
    (hres : create_cashgram_invoke params creds now tok http = .ok res) :
    (res.httpCalled = false → res.result.success = false) ∧
    (∀ st text json, http = .response st text json → res.httpCalled = true →
      res.result.success = (st == 200) ∧ res.result.status_code = some (st : Int)) ∧
    (∀ m, http = .transportError m →
      res.result.success = false ∧ (res.httpCalled = true → res.result.status_code = some 0)) := by
  unfold create_cashgram_invoke at hres
  iterate 12 (all_goals try split at hres)
  all_goals cases hres
  all_goals refine ⟨fun hfc => ?_, fun st text json hh hc => ?_, fun m hh => ?_⟩
  all_goals try cases hh
  all_goals try cases hc
  all_goals try cases hfc
  all_goals try rfl
  all_goals try exact ⟨rfl, fun hc2 => rfl⟩
  all_goals try exact ⟨rfl, fun hc2 => nomatch hc2⟩
  all_goals try exact (create_cashgram_validate_fail_fields _ _ _ (by assumption)).1
  all_goals try exact ⟨(create_cashgram_validate_fail_fields _ _ _ (by assumption)).1,
    fun hc2 => nomatch hc2⟩
  all_goals exact create_cashgram_post_ok_fields _ _ _ _ _ (by assumption)

/-- Helper: whenever a pg-refund invocation terminates normally, the success
flag of its record is the status-is-200 test when the HTTP call was made,
false when it was not, and false with status code 0 on a transport
failure. -/
theorem pg_create_refund_invoke_success (params creds : PyDict) (http : HttpOutcome)
    (res : InvokeResult)
    (hres : pg_create_refund_invoke params creds http = .ok res) :
    (res.httpCalled = false → res.result.success = false) ∧
    (∀ st text json, http = .response st text json → res.httpCalled = true →
      res.result.success = (st == 200) ∧ res.result.status_code = some (st : Int)) ∧
    (∀ m, http = .transportError m →
      res.result.success = false ∧ (res.httpCalled = true → res.result.status_code = some 0)) := by
  unfold pg_create_refund_invoke at hres
  iterate 12 (all_goals try split at hres)
  all_goals cases hres
  all_goals refine ⟨fun hfc => ?_, fun st text json hh hc => ?_, fun m hh => ?_⟩
  all_goals try cases hh
  all_goals try cases hc
  all_goals try cases hfc
  all_goals try rfl
  all_goals try exact ⟨rfl, fun hc2 => rfl⟩
  all_goals try exact ⟨rfl, fun hc2 => nomatch hc2⟩
  all_goals try exact (create_refund_validate_fail_fields _ _ (by assumption)).1
  all_goals try exact ⟨(create_refund_validate_fail_fields _ _ (by assumption)).1,
    fun hc2 => nomatch hc2⟩
  all_goals exact create_refund_post_ok_fields _ _ _ _ _ _ (by assumption)

/-- Helper: whenever a tools-refund invocation terminates normally, the
success flag of its record is the status-is-200 test when the HTTP call was
made, false when it was not, and false with status code 0 on a transport
failure. -/
theorem tools_create_refund_invoke_success (params creds : PyDict)
    (tok : Except String String) (http : HttpOutcome) (res : InvokeResult)
    (hres : tools_create_refund_invoke params creds tok http = .ok res) :
    (res.httpCalled = false → res.result.success = false) ∧
    (∀ st text json, http = .response st text json → res.httpCalled = true →
      res.result.success = (st == 200) ∧ res.result.status_code = some (st : Int)) ∧
    (∀ m, http = .transportError m →
      res.result.success = false ∧ (res.httpCalled = true → res.result.status_code = some 0)) := by
  unfold tools_create_refund_invoke at hres
  iterate 12 (all_goals try split at hres)
  all_goals cases hres
  all_goals refine ⟨fun hfc => ?_, fun st text json hh hc => ?_, fun m hh => ?_⟩
  all_goals try cases hh
  all_goals try cases hc
  all_goals try cases hfc
  all_goals try rfl
  all_goals try exact ⟨rfl, fun hc2 => rfl⟩
  all_goals try exact ⟨rfl, fun hc2 => nomatch hc2⟩
  all_goals try exact (create_refund_validate_fail_fields _ _ (by assumption)).1
  all_goals try exact ⟨(create_refund_validate_fail_fields _ _ (by assumption)).1,
    fun hc2 => nomatch hc2⟩
  all_goals exact create_refund_post_ok_fields _ _ _ _ _ _ (by assumption)

/-- Helper: every early record of the order validation has success false and
no status code. -/
theorem create_order_validate_fail_fields (params creds : PyDict) (r : RespData)
    (h : create_order_validate params creds = .ok (some r)) :
    r.success = false ∧ r.status_code = Option.none := by
  unfold create_order_validate at h
  repeat
    first
    | (cases h; exact ⟨rfl, rfl⟩)
    | cases h
    | split at h

/-- Helper: in every record yielded by an order invocation, the success flag
holds exactly when the response status was 200 and the record still carries
that status (the catch-all handler rewrites the status to 0 when the
post-processing of a 200 response raises); on a transport failure success is
always false. -/
theorem create_order_invoke_success (params creds : PyDict) (st : Nat) (text : String)
    (json : Option JVal) :
    ((create_order_invoke params creds (.response st text json)).result.success = true ↔
      (st = 200 ∧ (create_order_invoke params creds (.response st text json)).result.status_code
        = some (st : Int))) ∧
    (∀ m, (create_order_invoke params creds (.transportError m)).result.success = false) := by
  constructor
  · unfold create_order_invoke
    cases hv : create_order_validate params creds with
    | error e =>
        dsimp only
        constructor
        · intro hfalse
          cases hfalse
        · rintro ⟨h200, hsc⟩
          simp at hsc
          omega
    | ok o =>
      cases o with
      | some r =>
        have hf := create_order_validate_fail_fields params creds r hv
        dsimp only
        rw [hf.1, hf.2]
        simp
      | none =>
        dsimp only
        cases hp : create_order_post st text json with
        | ok r =>
          have hf := create_order_post_ok_fields st text json r hp
          dsimp only
          rw [hf.1, hf.2]
          simp
        | error pr =>
          cases pr with
          | mk e r0 =>
            dsimp only
            constructor
            · intro hfalse
              cases hfalse
            · rintro ⟨h200, hsc⟩
              simp at hsc
              omega
  · intro m
    unfold create_order_invoke
    cases hv : create_order_validate params creds with
    | error e => rfl
    | ok o =>
      cases o with
      | some r => exact (create_order_validate_fail_fields params creds r hv).1
      | none => rfl

/-- C10 counterexample: a create_order invocation whose HTTP response has
status exactly 200 but a JSON body that is not a dict (here an empty array)
yields a record with success = false (the AttributeError raised while
extracting order_id from the body is converted by the catch-all handler,
which also rewrites status_code to 0), contradicting the claim that success
is true whenever the response status is exactly 200. -/
theorem C10_counterexample :
    (create_order_invoke
        [("order_amount", .str "100"), ("customer_id", .str "c1"),
         ("customer_email", .str "c"), ("customer_phone", .str "9999"),
         ("customer_name", .str "C")]
        [("cashfree_client_id", .str "id"), ("cashfree_client_secret", .str "sec")]
        (.response 200 "[]" (some (.arr [])))).httpCalled = true ∧
    (create_order_invoke
        [("order_amount", .str "100"), ("customer_id", .str "c1"),
         ("customer_email", .str "c"), ("customer_phone", .str "9999"),
         ("customer_name", .str "C")]
        [("cashfree_client_id", .str "id"), ("cashfree_client_secret", .str "sec")]
        (.response 200 "[]" (some (.arr [])))).result.success = false ∧
    (create_order_invoke
        [("order_amount", .str "100"), ("customer_id", .str "c1"),
         ("customer_email", .str "c"), ("customer_phone", .str "9999"),
         ("customer_name", .str "C")]
        [("cashfree_client_id", .str "id"), ("cashfree_client_secret", .str "sec")]
        (.response 200 "[]" (some (.arr [])))).result.status_code = some 0 := by
  refine ⟨?_, ?_, ?_⟩ <;> with_unfolding_all rfl

/-- C10 (amended): in every record yielded by the cited tools, success
implies the response status was exactly 200, and success is exactly the
status-is-200 test whenever the record still reflects the response
(httpCalled with matching status); transport failures (status_code 0) and
skipped calls always yield success = false. For create_order the
catch-all handler makes one exception case explicit: when post-processing a
200 response raises (non-dict JSON body), the final record has success
false with status_code rewritten to 0, so success is equivalent to the
status being 200 AND the record still carrying that status. The cashgram
and tools-refund tools have no catch-all, so every record they do yield
satisfies success = (status == 200) exactly. -/
theorem C10_amended :
    (∀ params creds : PyDict, ∀ st : Nat, ∀ text : String, ∀ json : Option JVal,
      ((create_order_invoke params creds (.response st text json)).result.success = true ↔
        (st = 200 ∧
         (create_order_invoke params creds (.response st text json)).result.status_code =
           some (st : Int))) ∧
      (∀ m, (create_order_invoke params creds (.transportError m)).result.success = false)) ∧
    (∀ params creds : PyDict, ∀ now : Rat, ∀ tok : Except String String,
      ∀ http : HttpOutcome, ∀ res : InvokeResult,
      create_cashgram_invoke params creds now tok http = .ok res →
      ((res.httpCalled = false → res.result.success = false) ∧
       (∀ st text json, http = .response st text json → res.httpCalled = true →
         res.result.success = (st == 200) ∧ res.result.status_code = some (st : Int)) ∧
       (∀ m, http = .transportError m →
         res.result.success = false ∧
         (res.httpCalled = true → res.result.status_code = some 0)))) ∧
    (∀ params creds : PyDict, ∀ tok : Except String String,
      ∀ http : HttpOutcome, ∀ res : InvokeResult,
      tools_create_refund_invoke params creds tok http = .ok res →
      ((res.httpCalled = false → res.result.success = false) ∧
       (∀ st text json, http = .response st text json → res.httpCalled = true →
         res.result.success = (st == 200) ∧ res.result.status_code = some (st : Int)) ∧
       (∀ m, http = .transportError m →
         res.result.success = false ∧
         (res.httpCalled = true → res.result.status_code = some 0)))) :=
  ⟨fun p c st t j => create_order_invoke_success p c st t j,
   fun p c n tok h r hr => create_cashgram_invoke_success p c n tok h r hr,
   fun p c tok h r hr => tools_create_refund_invoke_success p c tok h r hr⟩

/-- C10 witness: concrete cashgram and refund invocations receiving a 201
response yield success = false with the status recorded; a transport failure
yields success = false with status 0. -/
theorem C10_amended_witness :
    ((create_cashgram_invoke
        [("cashgramId", .str "cg1"), ("amount", .str "10"), ("name", .str "Al"),
         ("phone", .str "999"), ("linkExpiry", .str "2026/11/10")]
        [("cashfree_client_id", .str "id"), ("cashfree_client_secret", .str "sec")]
        (((20738 : Int) : Rat) + 1/2) (.ok "T") (.response 201 "" (some (.obj []))) =
      .ok { result := { status_code := some 201, success := false,
                        api_response := some (.obj []),
                        message := "API returned error status 201" },
            httpCalled := true }) ∧
     ({ result := { status_code := some 201, success := false,
                    api_response := some (.obj []),
                    message := "API returned error status 201" },
        httpCalled := true : InvokeResult }.result.success = ((201 : Nat) == 200))) ∧
    ((tools_create_refund_invoke
        [("order_id", .str "o1"), ("refund_amount", .str "10"), ("refund_id", .str "ref1")]
        [("cashfree_client_id", .str "id"), ("cashfree_client_secret", .str "sec")]
        (.ok "T") (.transportError "timeout") =
      .ok { result := { status_code := some 0, success := false,
                        api_response := Option.none,
                        message := "Network Error: Could not connect to API within timeout. Details: timeout" },
            httpCalled := true }) ∧
     ({ result := { status_code := some 0, success := false,
                    api_response := Option.none,
                    message := "Network Error: Could not connect to API within timeout. Details: timeout" },
        httpCalled := true : InvokeResult }.result.success = false)) := by
  have h1 : create_cashgram_invoke
      [("cashgramId", .str "cg1"), ("amount", .str "10"), ("name", .str "Al"),
       ("phone", .str "999"), ("linkExpiry", .str "2026/11/10")]
      [("cashfree_client_id", .str "id"), ("cashfree_client_secret", .str "sec")]
      (((20738 : Int) : Rat) + 1/2) (.ok "T") (.response 201 "" (some (.obj []))) =
      .ok { result := { status_code := some 201, success := false,
                        api_response := some (.obj []),
                        message := "API returned error status 201" },
            httpCalled := true } := by
    with_unfolding_all rfl
  have h2 : tools_create_refund_invoke
      [("order_id", .str "o1"), ("refund_amount", .str "10"), ("refund_id", .str "ref1")]
      [("cashfree_client_id", .str "id"), ("cashfree_client_secret", .str "sec")]
      (.ok "T") (.transportError "timeout") =
      .ok { result := { status_code := some 0, success := false,
                        api_response := Option.none,
                        message := "Network Error: Could not connect to API within timeout. Details: timeout" },
            httpCalled := true } := by
    with_unfolding_all rfl
  refine ⟨⟨h1, ?_⟩, ⟨h2, ?_⟩⟩
  · exact ((C10_amended.2.1 _ _ _ _ _ _ h1).2.1 201 "" (some (.obj [])) rfl rfl).1
  · exact ((C10_amended.2.2 _ _ _ _ _ h2).2.2 "timeout" rfl).1

/-- One 6-bit group to its base64 alphabet code (RFC 4648), as ASCII byte. -/
def b64char (i : Nat) : Nat :=
  if i < 26 then 65 + i
  else if i < 52 then 97 + (i - 26)
  else if i < 62 then 48 + (i - 52)
  else if i = 62 then 43
  else 47

/-- Inverse of the base64 alphabet: ASCII byte back to the 6-bit group. -/
def b64charInv (c : Nat) : Option Nat :=
  if 65 ≤ c ∧ c ≤ 90 then some (c - 65)
  else if 97 ≤ c ∧ c ≤ 122 then some (c - 97 + 26)
  else if 48 ≤ c ∧ c ≤ 57 then some (c - 48 + 52)
  else if c = 43 then some 62
  else if c = 47 then some 63
  else none

/-- base64.b64encode over byte lists: 3 bytes to 4 alphabet chars,
with = (61) padding for trailing groups of 1 or 2 bytes. -/
def b64encode : List Nat → List Nat
  | [] => []
  | [a] => [b64char (a / 4), b64char (a % 4 * 16), 61, 61]
  | [a, b] => [b64char (a / 4), b64char (a % 4 * 16 + b / 16), b64char (b % 16 * 4), 61]
  | a :: b :: c :: rest =>
      b64char (a / 4) :: b64char (a % 4 * 16 + b / 16) ::
        b64char (b % 16 * 4 + c / 64) :: b64char (c % 64) :: b64encode rest

/-- base64 decoding of a list of ASCII codes back to bytes. -/
def b64decode : List Nat → Option (List Nat)
  | [] => some []
  | c1 :: c2 :: c3 :: c4 :: rest =>
      if c3 = 61 ∧ c4 = 61 ∧ rest = [] then
        (b64charInv c1).bind fun v1 =>
        (b64charInv c2).bind fun v2 =>
        some [v1 * 4 + v2 / 16]
      else if c4 = 61 ∧ rest = [] then
        (b64charInv c1).bind fun v1 =>
        (b64charInv c2).bind fun v2 =>
        (b64charInv c3).bind fun v3 =>
        some [v1 * 4 + v2 / 16, v2 % 16 * 16 + v3 / 4]
      else
        (b64charInv c1).bind fun v1 =>
        (b64charInv c2).bind fun v2 =>
        (b64charInv c3).bind fun v3 =>
        (b64charInv c4).bind fun v4 =>
        (b64decode rest).bind fun bs =>
        some ((v1 * 4 + v2 / 16) :: (v2 % 16 * 16 + v3 / 4) :: (v3 % 4 * 64 + v4) :: bs)
  | _ => none

theorem b64charInv_b64char (v : Nat) (hv : v < 64) : b64charInv (b64char v) = some v := by
  have h : ∀ w < 64, b64charInv (b64char w) = some w := by decide
  exact h v hv

theorem b64char_ne_61 (v : Nat) : b64char v ≠ 61 := by
  unfold b64char
  repeat' split
  all_goals omega

theorem b64_roundtrip (l : List Nat) (hl : ∀ b ∈ l, b < 256) :
    b64decode (b64encode l) = some l := by
  induction l using b64encode.induct with
  | case1 => rfl
  | case2 a =>
      have ha : a < 256 := hl a (by simp)
      unfold b64encode b64decode
      rw [if_pos ⟨rfl, rfl, rfl⟩]
      rw [b64charInv_b64char (a / 4) (by omega), b64charInv_b64char (a % 4 * 16) (by omega)]
      simp only [Option.some_bind, Option.some.injEq, List.cons.injEq, and_true]
      omega
  | case3 a b =>
      have ha : a < 256 := hl a (by simp)
      have hb : b < 256 := hl b (by simp)
      unfold b64encode b64decode
      rw [if_neg (fun h => b64char_ne_61 (b % 16 * 4) h.1)]
      rw [if_pos ⟨rfl, rfl⟩]
      rw [b64charInv_b64char (a / 4) (by omega),
        b64charInv_b64char (a % 4 * 16 + b / 16) (by omega),
        b64charInv_b64char (b % 16 * 4) (by omega)]
      simp only [Option.some_bind, Option.some.injEq, List.cons.injEq, and_true]
      omega
  | case4 a b c rest ih =>
      have ha : a < 256 := hl a (by simp)
      have hb : b < 256 := hl b (by simp)
      have hc : c < 256 := hl c (by simp)
      have hrest : ∀ x ∈ rest, x < 256 := fun x hx => hl x (by simp [hx])
      unfold b64encode b64decode
      rw [if_neg (fun h => b64char_ne_61 (b % 16 * 4 + c / 64) h.1)]
      rw [if_neg (fun h => b64char_ne_61 (c % 64) h.1)]
      rw [b64charInv_b64char (a / 4) (by omega),
        b64charInv_b64char (a % 4 * 16 + b / 16) (by omega),
        b64charInv_b64char (b % 16 * 4 + c / 64) (by omega),
        b64charInv_b64char (c % 64) (by omega), ih hrest]
      simp only [Option.some_bind, Option.some.injEq, List.cons.injEq, and_true]
      refine ⟨by omega, by omega, by omega⟩

/-- OS2IP: big-endian byte list to a natural number. -/
def os2ip : List Nat → Nat
  | [] => 0
  | b :: rest => b * 256 ^ rest.length + os2ip rest

/-- I2OSP: a natural number to a big-endian byte list of fixed length. -/
def i2osp (x : Nat) : Nat → List Nat
  | 0 => []
  | k + 1 => x / 256 ^ k % 256 :: i2osp x k

theorem i2osp_length (x k : Nat) : (i2osp x k).length = k := by
  induction k with
  | zero => rfl
  | succ k ih => simp [i2osp, ih]

theorem i2osp_bytes_lt (x k : Nat) : ∀ b ∈ i2osp x k, b < 256 := by
  induction k with
  | zero => simp [i2osp]
  | succ k ih =>
      intro b hb
      rw [i2osp, List.mem_cons] at hb
      rcases hb with hb | hb
      · omega
      · exact ih b hb

theorem os2ip_i2osp_mod (x k : Nat) : os2ip (i2osp x k) = x % 256 ^ k := by
  induction k with
  | zero => simp [i2osp, os2ip, Nat.mod_one]
  | succ k ih =>
      show os2ip (x / 256 ^ k % 256 :: i2osp x k) = x % 256 ^ (k + 1)
      rw [os2ip, i2osp_length, ih, pow_succ, Nat.mod_mul]
      ring

theorem os2ip_i2osp (x k : Nat) (h : x < 256 ^ k) : os2ip (i2osp x k) = x := by
  rw [os2ip_i2osp_mod, Nat.mod_eq_of_lt h]

theorem os2ip_lt (l : List Nat) (hl : ∀ b ∈ l, b < 256) : os2ip l < 256 ^ l.length := by
  induction l with
  | nil => simp [os2ip]
  | cons b rest ih =>
      have hb : b < 256 := hl b (by simp)
      have hr : os2ip rest < 256 ^ rest.length := ih (fun x hx => hl x (by simp [hx]))
      show b * 256 ^ rest.length + os2ip rest < 256 ^ (rest.length + 1)
      calc b * 256 ^ rest.length + os2ip rest
          < b * 256 ^ rest.length + 256 ^ rest.length := Nat.add_lt_add_left hr _
        _ = (b + 1) * 256 ^ rest.length := by ring
        _ ≤ 256 * 256 ^ rest.length := Nat.mul_le_mul_right _ (by omega)
        _ = 256 ^ (rest.length + 1) := by ring

theorem os2ip_inj : ∀ l1 l2 : List Nat, l1.length = l2.length →
    (∀ b ∈ l1, b < 256) → (∀ b ∈ l2, b < 256) → os2ip l1 = os2ip l2 → l1 = l2 := by
  intro l1
  induction l1 with
  | nil =>
      intro l2 hlen _ _ _
      cases l2 with
      | nil => rfl
      | cons b r => simp at hlen
  | cons b1 r1 ih =>
      intro l2 hlen h1 h2 heq
      cases l2 with
      | nil => simp at hlen
      | cons b2 r2 =>
          have hr : r1.length = r2.length := by simpa using hlen
          have e1 : os2ip r1 < 256 ^ r1.length := os2ip_lt r1 (fun x hx => h1 x (by simp [hx]))
          have e2 : os2ip r2 < 256 ^ r2.length := os2ip_lt r2 (fun x hx => h2 x (by simp [hx]))
          rw [os2ip, os2ip, ← hr] at heq
          have hP : 0 < 256 ^ r1.length := Nat.pos_pow_of_pos _ (by omega)
          have hb : b1 = b2 := by
            have d1 : (b1 * 256 ^ r1.length + os2ip r1) / 256 ^ r1.length = b1 := by
              rw [Nat.mul_comm b1 _, Nat.mul_add_div hP, Nat.div_eq_of_lt e1]
              omega
            have d2 : (b2 * 256 ^ r1.length + os2ip r2) / 256 ^ r1.length = b2 := by
              rw [Nat.mul_comm b2 _, Nat.mul_add_div hP, Nat.div_eq_of_lt (hr ▸ e2)]
              omega
            rw [← d1, ← d2, heq]
          subst hb
          have hrest : os2ip r1 = os2ip r2 := Nat.add_left_cancel heq
          rw [ih r2 hr (fun x hx => h1 x (by simp [hx])) (fun x hx => h2 x (by simp [hx])) hrest]

/-- 32-bit left rotation on naturals below 2 to the 32. -/
def rotl32 (s x : Nat) : Nat := (x <<< s) % 4294967296 ||| x >>> (32 - s)

/-- SHA-1 round function for round i. -/
def sha1f (i b c d : Nat) : Nat :=
  if i < 20 then (b &&& c) ||| ((b ^^^ 4294967295) &&& d)
  else if i < 40 then b ^^^ c ^^^ d
  else if i < 60 then (b &&& c) ||| (b &&& d) ||| (c &&& d)
  else b ^^^ c ^^^ d

/-- SHA-1 round constant for round i. -/
def sha1k (i : Nat) : Nat :=
  if i < 20 then 1518500249
  else if i < 40 then 1859775393
  else if i < 60 then 2400959708
  else 3395469782

/-- The 80 SHA-1 rounds over the message schedule. -/
def sha1rounds : Nat → List Nat → Nat × Nat × Nat × Nat × Nat → Nat × Nat × Nat × Nat × Nat
  | _, [], st => st
  | i, w :: ws, (a, b, c, d, e) =>
      sha1rounds (i + 1) ws
        ((rotl32 5 a + sha1f i b c d + e + sha1k i + w) % 4294967296, a, rotl32 30 b, c, d)

/-- Extend the 16 message words to the full 80-word schedule, n more words. -/
def sha1extend : List Nat → Nat → List Nat
  | ws, 0 => ws
  | ws, n + 1 =>
      sha1extend
        (ws ++ [rotl32 1 (ws.getD (ws.length - 3) 0 ^^^ ws.getD (ws.length - 8) 0 ^^^
          ws.getD (ws.length - 14) 0 ^^^ ws.getD (ws.length - 16) 0)]) n

/-- One SHA-1 compression step over a 64-byte chunk. -/
def sha1chunk (st : Nat × Nat × Nat × Nat × Nat) (chunk : List Nat) : Nat × Nat × Nat × Nat × Nat :=
  let ws16 := (List.range 16).map fun j => os2ip ((chunk.drop (4 * j)).take 4)
  let w := sha1extend ws16 64
  let r := sha1rounds 0 w st
  ((st.1 + r.1) % 4294967296, (st.2.1 + r.2.1) % 4294967296, (st.2.2.1 + r.2.2.1) % 4294967296,
    (st.2.2.2.1 + r.2.2.2.1) % 4294967296, (st.2.2.2.2 + r.2.2.2.2) % 4294967296)

/-- SHA-1 padding: 0x80, zeros to 56 mod 64, then the 8-byte bit length. -/
def sha1pad (msg : List Nat) : List Nat :=
  msg ++ 128 :: List.replicate ((119 - msg.length % 64) % 64) 0 ++ i2osp (msg.length * 8) 8

/-- SHA-1 of a byte list, as a 20-byte list. -/
def sha1 (msg : List Nat) : List Nat :=
  let padded := sha1pad msg
  let st := (List.range (padded.length / 64)).foldl
    (fun st i => sha1chunk st ((padded.drop (64 * i)).take 64))
    (1732584193, 4023233417, 2562383102, 271733878, 3285377520)
  i2osp st.1 4 ++ i2osp st.2.1 4 ++ i2osp st.2.2.1 4 ++ i2osp st.2.2.2.1 4 ++ i2osp st.2.2.2.2 4

theorem sha1_length (msg : List Nat) : (sha1 msg).length = 20 := by
  unfold sha1
  simp [i2osp_length]

theorem sha1_bytes (msg : List Nat) : ∀ b ∈ sha1 msg, b < 256 := by
  unfold sha1
  intro b hb
  simp only [List.mem_append] at hb
  rcases hb with ((((hb | hb) | hb) | hb) | hb) <;> exact i2osp_bytes_lt _ _ _ hb

/-- Concatenation of the first n MGF1 hash blocks (counter 0 to n-1). -/
def mgf1blocks (seed : List Nat) : Nat → List Nat
  | 0 => []
  | n + 1 => mgf1blocks seed n ++ sha1 (seed ++ i2osp n 4)

/-- MGF1 with SHA-1: len mask bytes derived from the seed. -/
def mgf1 (seed : List Nat) (len : Nat) : List Nat :=
  (mgf1blocks seed ((len + 19) / 20)).take len

theorem mgf1blocks_length (seed : List Nat) (n : Nat) : (mgf1blocks seed n).length = 20 * n := by
  induction n with
  | zero => rfl
  | succ n ih =>
      show (mgf1blocks seed n ++ sha1 (seed ++ i2osp n 4)).length = 20 * (n + 1)
      rw [List.length_append, ih, sha1_length]
      ring

theorem mgf1_length (seed : List Nat) (len : Nat) : (mgf1 seed len).length = len := by
  unfold mgf1
  rw [List.length_take, mgf1blocks_length]
  omega

theorem mgf1blocks_bytes (seed : List Nat) (n : Nat) : ∀ b ∈ mgf1blocks seed n, b < 256 := by
  induction n with
  | zero => simp [mgf1blocks]
  | succ n ih =>
      intro b hb
      rw [show mgf1blocks seed (n + 1) = mgf1blocks seed n ++ sha1 (seed ++ i2osp n 4) from rfl,
        List.mem_append] at hb
      rcases hb with hb | hb
      · exact ih b hb
      · exact sha1_bytes _ b hb

theorem mgf1_bytes (seed : List Nat) (len : Nat) : ∀ b ∈ mgf1 seed len, b < 256 := by
  intro b hb
  exact mgf1blocks_bytes seed _ b (List.mem_of_mem_take hb)

theorem zipWith_xor_cancel : ∀ a b : List Nat, a.length = b.length →
    List.zipWith Nat.xor (List.zipWith Nat.xor a b) b = a := by
  intro a
  induction a with
  | nil => intro b _; cases b <;> rfl
  | cons x xs ih =>
      intro b hb
      cases b with
      | nil => simp at hb
      | cons y ys =>
          simp only [List.zipWith_cons_cons]
          rw [show Nat.xor (Nat.xor x y) y = x from Nat.xor_cancel_right y x,
            ih ys (by simpa using hb)]

theorem zipWith_xor_bytes (a b : List Nat) (ha : ∀ x ∈ a, x < 256) (hb : ∀ x ∈ b, x < 256) :
    ∀ x ∈ List.zipWith Nat.xor a b, x < 256 := by
  induction a generalizing b with
  | nil => simp
  | cons p ps ih =>
      cases b with
      | nil => simp
      | cons q qs =>
          intro x hx
          simp only [List.zipWith_cons_cons, List.mem_cons] at hx
          rcases hx with hx | hx
          · have hp : p < 2 ^ 8 := ha p (by simp)
            have hq : q < 2 ^ 8 := hb q (by simp)
            calc x = p ^^^ q := hx
              _ < 2 ^ 8 := Nat.xor_lt_two_pow hp hq
          · exact ih qs (fun u hu => ha u (by simp [hu])) (fun u hu => hb u (by simp [hu])) x hx

/-- The data block DB of EME-OAEP: lHash, the zero padding PS, 0x01, then the message. -/
def oaep_db (k : Nat) (m : List Nat) : List Nat :=
  sha1 [] ++ (List.replicate (k - m.length - 2 * 20 - 2) 0 ++ 1 :: m)

/-- DB masked with MGF1 of the random seed. -/
def oaep_maskedDB (k : Nat) (m seed : List Nat) : List Nat :=
  List.zipWith Nat.xor (oaep_db k m) (mgf1 seed (k - 20 - 1))

/-- The seed masked with MGF1 of the masked DB. -/
def oaep_maskedSeed (k : Nat) (m seed : List Nat) : List Nat :=
  List.zipWith Nat.xor seed (mgf1 (oaep_maskedDB k m seed) 20)

/-- EME-OAEP encoding (SHA-1, MGF1-SHA-1, empty label) of message m into k bytes. -/
def oaep_encode (k : Nat) (m seed : List Nat) : List Nat :=
  0 :: (oaep_maskedSeed k m seed ++ oaep_maskedDB k m seed)

/-- Strip the OAEP zero padding up to the 0x01 separator. -/
def oaep_unpad : List Nat → Option (List Nat)
  | 0 :: rest => oaep_unpad rest
  | 1 :: rest => some rest
  | _ => none

/-- EME-OAEP decoding after the leading zero byte: unmask the seed and DB,
check lHash, strip the padding. -/
def oaep_decode_body (rest : List Nat) : Option (List Nat) :=
  let maskedSeed := rest.take 20
  let maskedDB := rest.drop 20
  let seed := List.zipWith Nat.xor maskedSeed (mgf1 maskedDB 20)
  let db := List.zipWith Nat.xor maskedDB (mgf1 seed maskedDB.length)
  if db.take 20 = sha1 [] then oaep_unpad (db.drop 20) else none

/-- EME-OAEP decoding: require the leading 0x00 byte, then decode the rest. -/
def oaep_decode : List Nat → Option (List Nat)
  | 0 :: rest => oaep_decode_body rest
  | _ => none

theorem oaep_unpad_replicate (ps : Nat) (m : List Nat) :
    oaep_unpad (List.replicate ps 0 ++ 1 :: m) = some m := by
  induction ps with
  | zero => rfl
  | succ ps ih =>
      rw [List.replicate_succ, List.cons_append]
      show oaep_unpad (List.replicate ps 0 ++ 1 :: m) = some m
      exact ih

theorem oaep_db_length (k : Nat) (m : List Nat) (hm : m.length + 42 ≤ k) :
    (oaep_db k m).length = k - 21 := by
  unfold oaep_db
  simp [sha1_length]
  omega

theorem oaep_maskedDB_length (k : Nat) (m seed : List Nat) (hm : m.length + 42 ≤ k) :
    (oaep_maskedDB k m seed).length = k - 21 := by
  unfold oaep_maskedDB
  rw [List.length_zipWith, oaep_db_length k m hm, mgf1_length]
  omega

theorem oaep_maskedSeed_length (k : Nat) (m seed : List Nat) (hseed : seed.length = 20) :
    (oaep_maskedSeed k m seed).length = 20 := by
  unfold oaep_maskedSeed
  rw [List.length_zipWith, hseed, mgf1_length]
  simp

theorem oaep_db_bytes (k : Nat) (m : List Nat) (hm : ∀ b ∈ m, b < 256) :
    ∀ b ∈ oaep_db k m, b < 256 := by
  intro b hb
  unfold oaep_db at hb
  simp only [List.mem_append, List.mem_cons, List.mem_replicate] at hb
  rcases hb with hb | (hb | hb | hb)
  · exact sha1_bytes [] b hb
  · omega
  · omega
  · exact hm b hb

theorem oaep_maskedDB_bytes (k : Nat) (m seed : List Nat) (hm : ∀ b ∈ m, b < 256) :
    ∀ b ∈ oaep_maskedDB k m seed, b < 256 :=
  zipWith_xor_bytes _ _ (oaep_db_bytes k m hm) (mgf1_bytes _ _)

theorem oaep_maskedSeed_bytes (k : Nat) (m seed : List Nat) (hseed : ∀ b ∈ seed, b < 256) :
    ∀ b ∈ oaep_maskedSeed k m seed, b < 256 :=
  zipWith_xor_bytes _ _ hseed (mgf1_bytes _ _)

theorem oaep_roundtrip (k : Nat) (m seed : List Nat)
    (hm : m.length + 42 ≤ k) (hseed : seed.length = 20) :
    oaep_decode (oaep_encode k m seed) = some m := by
  have hmdb : (oaep_maskedDB k m seed).length = k - 21 := oaep_maskedDB_length k m seed hm
  have hms : (oaep_maskedSeed k m seed).length = 20 := oaep_maskedSeed_length k m seed hseed
  unfold oaep_encode
  show oaep_decode_body (oaep_maskedSeed k m seed ++ oaep_maskedDB k m seed) = some m
  unfold oaep_decode_body
  dsimp only
  rw [List.take_left' hms, List.drop_left' hms]
  have hseedrec :
      List.zipWith Nat.xor (oaep_maskedSeed k m seed) (mgf1 (oaep_maskedDB k m seed) 20) = seed := by
    unfold oaep_maskedSeed
    exact zipWith_xor_cancel seed _ (by rw [hseed, mgf1_length])
  rw [hseedrec, hmdb]
  have hdbrec :
      List.zipWith Nat.xor (oaep_maskedDB k m seed) (mgf1 seed (k - 21)) = oaep_db k m := by
    unfold oaep_maskedDB
    rw [show k - 20 - 1 = k - 21 from by omega]
    exact zipWith_xor_cancel _ _ (by rw [oaep_db_length k m hm, mgf1_length])
  rw [hdbrec]
  have hlh : (sha1 []).length = 20 := sha1_length []
  have hdbtake : (oaep_db k m).take 20 = sha1 [] := by
    unfold oaep_db
    exact List.take_left' hlh
  have hdbdrop : (oaep_db k m).drop 20 = List.replicate (k - m.length - 2 * 20 - 2) 0 ++ 1 :: m := by
    unfold oaep_db
    exact List.drop_left' hlh
  rw [if_pos hdbtake, hdbdrop, oaep_unpad_replicate]

/-- An RSA public key: modulus and public exponent. -/
structure RSAPub where
  n : Nat
  e : Nat

/-- RSAEP: textbook RSA encryption of integer m. -/
def powMod (m e n : Nat) : Nat := m ^ e % n

/-- Number of base-256 digits of x, with explicit fuel (one digit per division). -/
def byteLenAux : Nat → Nat → Nat
  | 0, _ => 0
  | fuel + 1, x => if x = 0 then 0 else byteLenAux fuel (x / 256) + 1

/-- Byte size of an RSA modulus. -/
def modByteLen (n : Nat) : Nat := byteLenAux n n

/-- Little-endian decimal digits of x, with explicit fuel. -/
def decDigitsAux : Nat → Nat → List Nat
  | 0, _ => []
  | fuel + 1, x => if x = 0 then [] else x % 10 :: decDigitsAux fuel (x / 10)

/-- ASCII bytes of the Python decimal string of t (str(t)). -/
def decRepr (t : Nat) : List Nat :=
  if t = 0 then [48] else ((decDigitsAux t t).map (fun d => d + 48)).reverse

/-- UTF-8 bytes of the f-string interpolation of client_id, a dot, and the epoch. -/
def utf8_msg (clientId : List Nat) (epoch : Nat) : List Nat :=
  clientId ++ 46 :: decRepr epoch

/-- generate_signature from src/auth_utils.py: RSA-OAEP (SHA-1/MGF1-SHA-1, no label)
encryption of the dotted client id and epoch, base64 encoded. The OAEP random
seed of the library call is passed explicitly. -/
def generate_signature (clientId : List Nat) (epoch : Nat) (key : RSAPub)
    (seed : List Nat) : List Nat :=
  let k := modByteLen key.n
  b64encode (i2osp (powMod (os2ip (oaep_encode k (utf8_msg clientId epoch) seed)) key.e key.n) k)

theorem byteLenAux_zero (fuel : Nat) : byteLenAux fuel 0 = 0 := by
  cases fuel <;> rfl

theorem byteLenAux_bounds : ∀ fuel x, x ≤ fuel → 1 ≤ x →
    256 ^ (byteLenAux fuel x - 1) ≤ x ∧ x < 256 ^ byteLenAux fuel x := by
  intro fuel
  induction fuel with
  | zero => intro x h1 h2; omega
  | succ fuel ih =>
      intro x hx h1
      rw [byteLenAux, if_neg (by omega)]
      by_cases hlt : x < 256
      · rw [Nat.div_eq_of_lt hlt, byteLenAux_zero]
        constructor
        · simpa using h1
        · simpa using hlt
      · have hq1 : 1 ≤ x / 256 := by omega
        have hqfuel : x / 256 ≤ fuel := by
          have := Nat.div_lt_self (show 0 < x by omega) (show 1 < 256 by omega)
          omega
        obtain ⟨ih1, ih2⟩ := ih (x / 256) hqfuel hq1
        have hLpos : 1 ≤ byteLenAux fuel (x / 256) := by
          rcases Nat.eq_zero_or_pos (byteLenAux fuel (x / 256)) with h0 | h1'
          · rw [h0, pow_zero] at ih2; omega
          · exact h1'
        constructor
        · calc 256 ^ (byteLenAux fuel (x / 256) + 1 - 1)
              = 256 ^ (byteLenAux fuel (x / 256) - 1) * 256 := by
                rw [← pow_succ]
                congr 1
                omega
            _ ≤ x / 256 * 256 := Nat.mul_le_mul_right _ ih1
            _ ≤ x := Nat.div_mul_le_self x 256
        · calc x < 256 * (x / 256) + 256 := by omega
            _ = 256 * (x / 256 + 1) := by ring
            _ ≤ 256 * 256 ^ byteLenAux fuel (x / 256) := Nat.mul_le_mul_left _ (by omega)
            _ = 256 ^ (byteLenAux fuel (x / 256) + 1) := by ring

theorem modByteLen_bounds (n : Nat) (hn : 1 ≤ n) :
    256 ^ (modByteLen n - 1) ≤ n ∧ n < 256 ^ modByteLen n :=
  byteLenAux_bounds n n le_rfl hn

/-- Value of a little-endian decimal digit list. -/
def decVal : List Nat → Nat
  | [] => 0
  | d :: r => d + 10 * decVal r

theorem decVal_decDigitsAux : ∀ fuel x, x ≤ fuel → decVal (decDigitsAux fuel x) = x := by
  intro fuel
  induction fuel with
  | zero =>
      intro x hx
      have : x = 0 := by omega
      subst this
      rfl
  | succ fuel ih =>
      intro x hx
      rw [decDigitsAux]
      by_cases h0 : x = 0
      · rw [if_pos h0]
        subst h0
        rfl
      · rw [if_neg h0]
        have hq : x / 10 ≤ fuel := by
          have := Nat.div_lt_self (show 0 < x by omega) (show 1 < 10 by omega)
          omega
        rw [decVal, ih (x / 10) hq]
        omega

theorem decDigitsAux_lt : ∀ fuel x, ∀ d ∈ decDigitsAux fuel x, d < 10 := by
  intro fuel
  induction fuel with
  | zero => intro x d hd; simp [decDigitsAux] at hd
  | succ fuel ih =>
      intro x d hd
      rw [decDigitsAux] at hd
      by_cases h0 : x = 0
      · rw [if_pos h0] at hd; simp at hd
      · rw [if_neg h0, List.mem_cons] at hd
        rcases hd with hd | hd
        · omega
        · exact ih _ d hd

theorem decRepr_bytes (t : Nat) : ∀ b ∈ decRepr t, b < 256 := by
  intro b hb
  unfold decRepr at hb
  by_cases h0 : t = 0
  · rw [if_pos h0] at hb
    simp at hb
    omega
  · rw [if_neg h0, List.mem_reverse, List.mem_map] at hb
    obtain ⟨d, hd, hbd⟩ := hb
    have := decDigitsAux_lt t t d hd
    omega

theorem decRepr_inj (a b : Nat) (h : decRepr a = decRepr b) : a = b := by
  have hone : ∀ c : Nat, c ≠ 0 →
      ((decDigitsAux c c).map (fun d => d + 48)).reverse = [48] → False := by
    intro c hc hmap
    have hmap2 : (decDigitsAux c c).map (fun d => d + 48) = [48] := by
      have := congrArg List.reverse hmap
      simpa using this
    have hdig : decDigitsAux c c = [0] := by
      cases hd : decDigitsAux c c with
      | nil => rw [hd] at hmap2; simp at hmap2
      | cons d r =>
          rw [hd] at hmap2
          simp only [List.map_cons, List.cons.injEq] at hmap2
          obtain ⟨hd48, hrnil⟩ := hmap2
          rw [List.map_eq_nil_iff] at hrnil
          rw [hrnil]
          have hd0 : d = 0 := by omega
          rw [hd0]
    have hval := decVal_decDigitsAux c c le_rfl
    rw [hdig, show decVal [0] = 0 from rfl] at hval
    omega
  unfold decRepr at h
  by_cases ha : a = 0 <;> by_cases hb0 : b = 0
  · omega
  · rw [if_pos ha, if_neg hb0] at h
    exact (hone b hb0 h.symm).elim
  · rw [if_neg ha, if_pos hb0] at h
    exact (hone a ha h).elim
  · rw [if_neg ha, if_neg hb0] at h
    have hrev := List.reverse_injective h
    have hinj : Function.Injective (fun d : Nat => d + 48) := by
      intro x y hxy
      simp only [add_left_inj] at hxy
      exact hxy
    have hdig := List.map_injective_iff.mpr hinj hrev
    have h1 := decVal_decDigitsAux a a le_rfl
    have h2 := decVal_decDigitsAux b b le_rfl
    rw [← h1, ← h2, hdig]

theorem utf8_msg_bytes (clientId : List Nat) (t : Nat) (hcid : ∀ b ∈ clientId, b < 256) :
    ∀ b ∈ utf8_msg clientId t, b < 256 := by
  intro b hb
  unfold utf8_msg at hb
  rw [List.mem_append, List.mem_cons] at hb
  rcases hb with hb | hb | hb
  · exact hcid b hb
  · omega
  · exact decRepr_bytes t b hb

theorem utf8_msg_inj_epoch (clientId : List Nat) (t1 t2 : Nat)
    (h : utf8_msg clientId t1 = utf8_msg clientId t2) : t1 = t2 := by
  unfold utf8_msg at h
  have h2 := List.append_cancel_left h
  injection h2 with h46 h3
  exact decRepr_inj _ _ h3

theorem oaep_encode_length (k : Nat) (m seed : List Nat)
    (hm : m.length + 42 ≤ k) (hseed : seed.length = 20) :
    (oaep_encode k m seed).length = k := by
  unfold oaep_encode
  simp only [List.length_cons, List.length_append]
  rw [oaep_maskedSeed_length k m seed hseed, oaep_maskedDB_length k m seed hm]
  omega

theorem oaep_encode_bytes (k : Nat) (m seed : List Nat)
    (hm : ∀ b ∈ m, b < 256) (hs : ∀ b ∈ seed, b < 256) :
    ∀ b ∈ oaep_encode k m seed, b < 256 := by
  intro b hb
  unfold oaep_encode at hb
  simp only [List.mem_cons, List.mem_append] at hb
  rcases hb with hb | hb | hb
  · omega
  · exact oaep_maskedSeed_bytes k m seed hs b hb
  · exact oaep_maskedDB_bytes k m seed hm b hb

theorem os2ip_cons (b : Nat) (rest : List Nat) :
    os2ip (b :: rest) = b * 256 ^ rest.length + os2ip rest := rfl

theorem os2ip_oaep_encode_lt (k : Nat) (m seed : List Nat)
    (hm : m.length + 42 ≤ k) (hseed : seed.length = 20)
    (hmB : ∀ b ∈ m, b < 256) (hsB : ∀ b ∈ seed, b < 256) :
    os2ip (oaep_encode k m seed) < 256 ^ (k - 1) := by
  unfold oaep_encode
  rw [os2ip_cons]
  simp only [Nat.zero_mul, Nat.zero_add]
  have hrestB : ∀ b ∈ oaep_maskedSeed k m seed ++ oaep_maskedDB k m seed, b < 256 := by
    intro b hb
    rw [List.mem_append] at hb
    rcases hb with hb | hb
    · exact oaep_maskedSeed_bytes k m seed hsB b hb
    · exact oaep_maskedDB_bytes k m seed hmB b hb
  have hlen : (oaep_maskedSeed k m seed ++ oaep_maskedDB k m seed).length = k - 1 := by
    rw [List.length_append, oaep_maskedSeed_length k m seed hseed,
      oaep_maskedDB_length k m seed hm]
    omega
  calc os2ip (oaep_maskedSeed k m seed ++ oaep_maskedDB k m seed)
      < 256 ^ (oaep_maskedSeed k m seed ++ oaep_maskedDB k m seed).length := os2ip_lt _ hrestB
    _ = 256 ^ (k - 1) := by rw [hlen]

set_option maxHeartbeats 1000000 in
/-- C9: generate_signature (src/auth_utils.py, lines 41-75) returns exactly the
base64 encoding of the RSA-OAEP encryption (hash SHA-1, mask generation MGF1
with SHA-1, no label) of the UTF-8 bytes of the client id, a dot, and the
decimal epoch; the base64 decoding of its output recovers the RSA ciphertext,
whose length equals the byte size of the key modulus; and for a valid key,
formalised as injectivity of the RSA map below the modulus, the signatures for
epoch t and epoch t + 1 differ, even with the same OAEP random seed. -/
theorem C9_signature_rsa_oaep_base64
    (clientId seed : List Nat) (key : RSAPub) (t : Nat)
    (hcid : ∀ b ∈ clientId, b < 256)
    (hseedlen : seed.length = 20) (hseedB : ∀ b ∈ seed, b < 256)
    (hn : 1 ≤ key.n)
    (hfit1 : (utf8_msg clientId t).length + 42 ≤ modByteLen key.n)
    (hfit2 : (utf8_msg clientId (t + 1)).length + 42 ≤ modByteLen key.n)
    (hinj : ∀ x, x < key.n → ∀ y, y < key.n →
      powMod x key.e key.n = powMod y key.e key.n → x = y) :
    generate_signature clientId t key seed =
        b64encode (i2osp (powMod (os2ip (oaep_encode (modByteLen key.n)
          (utf8_msg clientId t) seed)) key.e key.n) (modByteLen key.n)) ∧
    b64decode (generate_signature clientId t key seed) =
        some (i2osp (powMod (os2ip (oaep_encode (modByteLen key.n)
          (utf8_msg clientId t) seed)) key.e key.n) (modByteLen key.n)) ∧
    (i2osp (powMod (os2ip (oaep_encode (modByteLen key.n)
        (utf8_msg clientId t) seed)) key.e key.n) (modByteLen key.n)).length =
      modByteLen key.n ∧
    generate_signature clientId t key seed ≠ generate_signature clientId (t + 1) key seed := by
  obtain ⟨hlow, hhigh⟩ := modByteLen_bounds key.n hn
  have hm1B : ∀ b ∈ utf8_msg clientId t, b < 256 := utf8_msg_bytes clientId t hcid
  have hm2B : ∀ b ∈ utf8_msg clientId (t + 1), b < 256 := utf8_msg_bytes clientId (t + 1) hcid
  have hc1lt : powMod (os2ip (oaep_encode (modByteLen key.n) (utf8_msg clientId t) seed))
      key.e key.n < 256 ^ modByteLen key.n :=
    lt_trans (Nat.mod_lt _ (by omega)) hhigh
  have hc2lt : powMod (os2ip (oaep_encode (modByteLen key.n) (utf8_msg clientId (t + 1)) seed))
      key.e key.n < 256 ^ modByteLen key.n :=
    lt_trans (Nat.mod_lt _ (by omega)) hhigh
  refine ⟨rfl, ?_, i2osp_length _ _, ?_⟩
  · exact b64_roundtrip _ (i2osp_bytes_lt _ _)
  · intro heq
    have hCeq : i2osp (powMod (os2ip (oaep_encode (modByteLen key.n)
          (utf8_msg clientId t) seed)) key.e key.n) (modByteLen key.n) =
        i2osp (powMod (os2ip (oaep_encode (modByteLen key.n)
          (utf8_msg clientId (t + 1)) seed)) key.e key.n) (modByteLen key.n) := by
      have h1 := b64_roundtrip (i2osp (powMod (os2ip (oaep_encode (modByteLen key.n)
        (utf8_msg clientId t) seed)) key.e key.n) (modByteLen key.n)) (i2osp_bytes_lt _ _)
      have h2 := b64_roundtrip (i2osp (powMod (os2ip (oaep_encode (modByteLen key.n)
        (utf8_msg clientId (t + 1)) seed)) key.e key.n) (modByteLen key.n)) (i2osp_bytes_lt _ _)
      have heq2 : b64encode (i2osp (powMod (os2ip (oaep_encode (modByteLen key.n)
            (utf8_msg clientId t) seed)) key.e key.n) (modByteLen key.n)) =
          b64encode (i2osp (powMod (os2ip (oaep_encode (modByteLen key.n)
            (utf8_msg clientId (t + 1)) seed)) key.e key.n) (modByteLen key.n)) := heq
      have hsome := (h1.symm.trans (congrArg b64decode heq2)).trans h2
      exact Option.some_injective _ hsome
    have hceq : powMod (os2ip (oaep_encode (modByteLen key.n) (utf8_msg clientId t) seed))
        key.e key.n =
        powMod (os2ip (oaep_encode (modByteLen key.n) (utf8_msg clientId (t + 1)) seed))
        key.e key.n := by
      have := congrArg os2ip hCeq
      rwa [os2ip_i2osp _ _ hc1lt, os2ip_i2osp _ _ hc2lt] at this
    have hx1lt : os2ip (oaep_encode (modByteLen key.n) (utf8_msg clientId t) seed) < key.n :=
      lt_of_lt_of_le (os2ip_oaep_encode_lt _ _ _ hfit1 hseedlen hm1B hseedB) hlow
    have hx2lt : os2ip (oaep_encode (modByteLen key.n) (utf8_msg clientId (t + 1)) seed) <
        key.n :=
      lt_of_lt_of_le (os2ip_oaep_encode_lt _ _ _ hfit2 hseedlen hm2B hseedB) hlow
    have hxeq := hinj _ hx1lt _ hx2lt hceq
    have hemeq : oaep_encode (modByteLen key.n) (utf8_msg clientId t) seed =
        oaep_encode (modByteLen key.n) (utf8_msg clientId (t + 1)) seed :=
      os2ip_inj _ _
        (by rw [oaep_encode_length _ _ _ hfit1 hseedlen, oaep_encode_length _ _ _ hfit2 hseedlen])
        (oaep_encode_bytes _ _ _ hm1B hseedB) (oaep_encode_bytes _ _ _ hm2B hseedB) hxeq
    have d1 := oaep_roundtrip (modByteLen key.n) (utf8_msg clientId t) seed hfit1 hseedlen
    have d2 := oaep_roundtrip (modByteLen key.n) (utf8_msg clientId (t + 1)) seed hfit2 hseedlen
    rw [hemeq, d2] at d1
    injection d1 with d1
    have := utf8_msg_inj_epoch clientId (t + 1) t d1
    omega

set_option maxRecDepth 4000 in
set_option maxHeartbeats 1000000 in
set_option exponentiation.threshold 500 in
/-- C9 witness: a 401-bit modulus (byte size 51) with exponent 1 (for which the
RSA map below the modulus is the identity, hence injective), client id bytes
97, 98, epoch 7, and the all-zero 20-byte OAEP seed. -/
theorem C9_signature_rsa_oaep_base64_witness :
    generate_signature [97, 98] 7 (RSAPub.mk (2 ^ 400) 1) (List.replicate 20 0) =
        b64encode (i2osp (powMod (os2ip (oaep_encode (modByteLen (2 ^ 400))
          (utf8_msg [97, 98] 7) (List.replicate 20 0))) 1 (2 ^ 400)) (modByteLen (2 ^ 400))) ∧
    b64decode (generate_signature [97, 98] 7 (RSAPub.mk (2 ^ 400) 1) (List.replicate 20 0)) =
        some (i2osp (powMod (os2ip (oaep_encode (modByteLen (2 ^ 400))
          (utf8_msg [97, 98] 7) (List.replicate 20 0))) 1 (2 ^ 400)) (modByteLen (2 ^ 400))) ∧
    (i2osp (powMod (os2ip (oaep_encode (modByteLen (2 ^ 400))
        (utf8_msg [97, 98] 7) (List.replicate 20 0))) 1 (2 ^ 400)) (modByteLen (2 ^ 400))).length =
      modByteLen (2 ^ 400) ∧
    generate_signature [97, 98] 7 (RSAPub.mk (2 ^ 400) 1) (List.replicate 20 0) ≠
      generate_signature [97, 98] (7 + 1) (RSAPub.mk (2 ^ 400) 1) (List.replicate 20 0) :=
  C9_signature_rsa_oaep_base64 [97, 98] (List.replicate 20 0) (RSAPub.mk (2 ^ 400) 1) 7
    (by decide) (by decide) (by decide)
    Nat.one_le_two_pow
    (by decide) (by decide)
    (fun x hx y hy h => by
      unfold powMod at h
      dsimp only at h hx hy
      rw [pow_one, pow_one, Nat.mod_eq_of_lt hx, Nat.mod_eq_of_lt hy] at h
      exact h)
